import Mathlib

/-!
Verification of the osde2e-common ROSA cluster lifecycle orchestration.

This file gives a shallow embedding, in Lean 4, of the cluster saga and its
helpers from the repository (package `rosa`: `CreateCluster`, `DeleteCluster`,
`cleanup`, `createCluster`, `validateCreateClusterOptions`,
`setDefaultCreateClusterOptions`, `setDefaultDeleteClusterOptions`,
`getAccountRoles`, `CreateAccountRoles`, the `Versions` constraint filter and
the two bounded waits), together with theorems settling the specification
claims about them.

External collaborators (the `rosa` CLI binary, the OCM SDK, terraform, the
Kubernetes client, the `wait.For` poller of sigs.k8s.io/e2e-framework and the
Masterminds semver library) are modelled at their interface boundary: each
external call's outcome is an input drawn from an environment record, and the
sequence of external calls a run performs is returned as an explicit trace of
actions.  Machine integers are modelled as `Int`/`Nat` (no value in the claims
approaches any overflow boundary), `time.Duration` values as whole seconds.

String primitives used by the embedded code are re-implemented structurally
over `String.data` so that every definition evaluates by kernel reduction on
concrete inputs.
-/

/-- `strStartsWith s p` models Go `strings.HasPrefix(s, p)`. -/
def strStartsWith (s p : String) : Bool :=
  p.data.isPrefixOf s.data

/-- `listContainsSub l sub` is true when `sub` occurs as a contiguous
sublist of `l`; structural recursion so it evaluates in the kernel. -/
def listContainsSub : List Char → List Char → Bool
  | _, [] => true
  | [], _ :: _ => false
  | c :: rest, sub => sub.isPrefixOf (c :: rest) || listContainsSub rest sub

/-- `strContains s sub` models Go `strings.Contains(s, sub)`. -/
def strContains (s sub : String) : Bool :=
  listContainsSub s.data sub.data

/-- Split a character list at every occurrence of `c` (models the behaviour
of Go `strings.Split` for a single-character separator). -/
def splitCharAux (c : Char) : List Char → List Char → List (List Char)
  | [], acc => [acc.reverse]
  | x :: xs, acc =>
    if x = c then acc.reverse :: splitCharAux c xs []
    else splitCharAux c xs (x :: acc)

/-- Split a string on a separator character. -/
def strSplitChar (s : String) (c : Char) : List String :=
  (splitCharAux c s.data []).map (fun l => ⟨l⟩)

/-- Parse a non-empty list of decimal digits into a `Nat`. -/
def digitsToNat : List Char → Option Nat
  | [] => none
  | cs =>
    if cs.all (fun c => c.isDigit) then
      some (cs.foldl (fun n c => n * 10 + (c.toNat - 48)) 0)
    else none

/-- Parse a decimal string into a `Nat` (empty and non-digit strings fail). -/
def strToNat (s : String) : Option Nat := digitsToNat s.data

/-!  ## Semantic version model

Modelled from the spec: the repository delegates semantic-version parsing and
constraint checking to the external Masterminds `semver/v3` library (§6
external interfaces; §4.2 of the spec describes the filtering semantics the
orchestrator builds on top of it).  We model the library's behaviour on the
inputs the claims use: plain dotted numeric versions of one to three
components (`NewVersion`), and constraints that are either a plain version
(exact match) or a tilde range `~X`, `~X.Y`, `~X.Y.Z` (`NewConstraint`), with
`~X.Y` meaning `>= X.Y.0, < X.(Y+1).0`. -/
structure SemVerV where
  major : Nat
  minor : Nat
  patch : Nat
deriving DecidableEq, Repr

/-- Lexicographic strict order on semantic versions. -/
def SemVerV.lt (a b : SemVerV) : Bool :=
  a.major < b.major ||
    (a.major == b.major &&
      (a.minor < b.minor || (a.minor == b.minor && a.patch < b.patch)))

/-- Non-strict lexicographic order on semantic versions. -/
def SemVerV.le (a b : SemVerV) : Bool :=
  a == b || SemVerV.lt a b

/-- Parse a dotted numeric version string of one to three components. -/
def parseSemVerStr (s : String) : Option SemVerV :=
  match (strSplitChar s '.').map strToNat with
  | [some a] => some ⟨a, 0, 0⟩
  | [some a, some b] => some ⟨a, b, 0⟩
  | [some a, some b, some c] => some ⟨a, b, c⟩
  | _ => none

/-- A constraint as produced by the modelled Masterminds `NewConstraint`. -/
inductive SemConstraint where
  | tilde1 (a : Nat)
  | tilde2 (a b : Nat)
  | tilde3 (a b c : Nat)
  | exactly (v : SemVerV)
deriving DecidableEq, Repr

/-- Parse a constraint string: `~`-prefixed tilde ranges and plain versions. -/
def parseConstraintStr (s : String) : Option SemConstraint :=
  match s.data with
  | '~' :: rest =>
    match (strSplitChar ⟨rest⟩ '.').map strToNat with
    | [some a] => some (.tilde1 a)
    | [some a, some b] => some (.tilde2 a b)
    | [some a, some b, some c] => some (.tilde3 a b c)
    | _ => none
  | _ =>
    match parseSemVerStr s with
    | some v => some (.exactly v)
    | none => none

/-- Constraint satisfaction (models Masterminds `Constraints.Check`). -/
def constraintCheck (c : SemConstraint) (v : SemVerV) : Bool :=
  match c with
  | .tilde1 a => SemVerV.le ⟨a, 0, 0⟩ v && SemVerV.lt v ⟨a + 1, 0, 0⟩
  | .tilde2 a b => SemVerV.le ⟨a, b, 0⟩ v && SemVerV.lt v ⟨a, b + 1, 0⟩
  | .tilde3 a b c => SemVerV.le ⟨a, b, c⟩ v && SemVerV.lt v ⟨a, b + 1, 0⟩
  | .exactly w => v == w

/-!  ## Version filtering (`Versions`, src/pkg/openshift/rosa/versions.go) -/

/-- A rosa version object (`version` struct in versions.go; the
`end_of_life_timestamp` field is modelled as its JSON string). -/
structure RosaVersion where
  ID : String
  Href : String
  AvailableUpgrades : List String
  ChannelGroup : String
  EndOfLifeTimestamp : String
  RawID : String
  ReleaseImage : String
  RosaEnabled : Bool
  Default : Bool
  Enabled : Bool
  HostedControlPlaneEnabled : Bool
deriving DecidableEq, Repr

/-- One pass of the inner loop of `Versions` (versions.go lines 90-98): keep
every version whose `RawID` satisfies the already-parsed constraint; an
unparseable candidate version aborts with an error. -/
def filterOnePass (c : SemConstraint) : List RosaVersion → Except String (List RosaVersion)
  | [] => .ok []
  | v :: rest =>
    match parseSemVerStr v.RawID with
    | none => .error "failed to build version"
    | some pv =>
      match filterOnePass c rest with
      | .error e => .error e
      | .ok tail => .ok (if constraintCheck c pv then v :: tail else tail)

/-- The outer constraint loop of `Versions` (versions.go lines 82-101):
matches of successive constraint passes are appended (accumulation, i.e.
union semantics), an unparseable constraint aborts with an error. -/
def filterVersionsLoop (versions : List RosaVersion) : List String → Except String (List RosaVersion)
  | [] => .ok []
  | c :: cs =>
    match parseConstraintStr c with
    | none => .error ("unable to build a constraint from " ++ c)
    | some con =>
      match filterOnePass con versions with
      | .error e => .error e
      | .ok l =>
        match filterVersionsLoop versions cs with
        | .error e => .error e
        | .ok ls => .ok (l ++ ls)

/-- Tail of `Versions`: with no constraints the fetched list is returned
unfiltered, otherwise the constraint loop runs. -/
def versionsConstraintFilter (versions : List RosaVersion) (constraints : List String) :
    Except String (List RosaVersion) :=
  match constraints with
  | [] => .ok versions
  | _ :: _ => filterVersionsLoop versions constraints

/-!  ## Traces of external calls

Every modelled operation returns, alongside its result, the list of external
calls it performed, in order.  Compensating (rollback) calls are the
`deleteVPCCall`, `deleteOIDCCall` and `deleteRolesCmd` actions. -/

/-- An external call performed by the embedded code. -/
inductive RAction where
  | listRolesCmd
  | createRolesCmd (pfx version channelGroup : String)
  | deleteRolesCmd (pfx : String)
  | createOIDCCall (pfx installerARN : String)
  | deleteOIDCCall (id : String)
  | createVPCCall (name region dir : String) (hostedCP privateLink : Bool)
  | deleteVPCCall (name region dir : String)
  | regionCheckCall (region : String)
  | nightlyWaitCall
  | createClusterCmd (args : List String)
  | findClusterCall (name : String)
  | installWaitCall (clusterID : String)
  | kubeconfigCall (clusterID : String)
  | clientBuildCall
  | healthCheckCall (clusterName : String)
  | deleteClusterCmd (clusterID : String)
  | deleteWaitCall (name : String)
  | deleteOperatorRolesCall (clusterID opPfx oidcID : String)
  | deleteOIDCProviderCall (clusterID oidcID : String)
deriving DecidableEq, Repr

/-- True exactly on the three compensating (rollback) actions. -/
def isCompAction : RAction → Bool
  | .deleteVPCCall _ _ _ => true
  | .deleteOIDCCall _ => true
  | .deleteRolesCmd _ => true
  | _ => false

/-!  ## Account roles (src/pkg/openshift/rosa/accountroles.go) -/

/-- `fedRampRolesCount` (accountroles.go line 13): HCP roles are disabled
for FedRamp. -/
def fedRampRolesCount : Nat := 4

/-- `commercialRolesCount` (accountroles.go line 14). -/
def commercialRolesCount : Nat := 7

/-- `AccountRoles` value object (accountroles.go lines 18-26). -/
structure AccountRoles where
  controlPlaneRoleARN : String
  installerRoleARN : String
  supportRoleARN : String
  workerRoleARN : String
  hcpInstallerRoleARN : String
  hcpSupportRoleARN : String
  hcpWorkerRoleARN : String
deriving DecidableEq, Repr

/-- The zero `AccountRoles` value (`roles = &AccountRoles{}`). -/
def AccountRoles.empty : AccountRoles := ⟨"", "", "", "", "", "", ""⟩

/-- One row of the `rosa list account-roles --output json` response. -/
structure ListedRole where
  RoleName : String
  RoleARN : String
  RoleType : String
deriving DecidableEq, Repr

/-- The body of the classification loop of `getAccountRoles`
(accountroles.go lines 130-172): skip names not carrying the prefix,
classify HCP-named roles by the three hosted role types and other roles by
the four commercial role types; unknown role types are only logged. -/
def classifyAccountRole (pfx : String) (acc : AccountRoles × Nat) (role : ListedRole) :
    AccountRoles × Nat :=
  let (roles, n) := acc
  if !(strStartsWith role.RoleName pfx) then acc
  else if strStartsWith role.RoleName "HCP-ROSA" ||
      strStartsWith role.RoleName (pfx ++ "-HCP-ROSA") then
    match role.RoleType with
    | "Installer" => ({ roles with hcpInstallerRoleARN := role.RoleARN }, n + 1)
    | "Support" => ({ roles with hcpSupportRoleARN := role.RoleARN }, n + 1)
    | "Worker" => ({ roles with hcpWorkerRoleARN := role.RoleARN }, n + 1)
    | _ => acc
  else
    match role.RoleType with
    | "Control plane" => ({ roles with controlPlaneRoleARN := role.RoleARN }, n + 1)
    | "Installer" => ({ roles with installerRoleARN := role.RoleARN }, n + 1)
    | "Support" => ({ roles with supportRoleARN := role.RoleARN }, n + 1)
    | "Worker" => ({ roles with workerRoleARN := role.RoleARN }, n + 1)
    | _ => acc

/-- Count and value produced by the classification loop over a listing. -/
def accountRolesScan (pfx : String) (listing : List ListedRole) : AccountRoles × Nat :=
  listing.foldl (classifyAccountRole pfx) (AccountRoles.empty, 0)

/-- `getAccountRoles` (accountroles.go lines 109-185).  The transport of the
`rosa list account-roles` command is abstracted: `listing` is the decoded
response when the command succeeds, `.error` when it fails.  Result `none`
models Go's `(nil, nil)` (no matching roles), `some` a validated role set. -/
def getAccountRoles (fedRamp : Bool) (listing : Except String (List ListedRole))
    (pfx : String) : Except String (Option AccountRoles) :=
  match listing with
  | .error e => .error ("failed to get account roles: " ++ e)
  | .ok rows =>
    let (roles, accountRolesFound) := accountRolesScan pfx rows
    if accountRolesFound == 0 then .ok none
    else if fedRamp && accountRolesFound == fedRampRolesCount then .ok (some roles)
    else if accountRolesFound != commercialRolesCount then
      .error ("one or more prefixed " ++ pfx ++ " account roles does not exist")
    else .ok (some roles)

/-- The mutable state seen by the account-role resolver: the current
account-role listing, plus the environment's choice of what the external
`rosa create account-roles` command would do (its effect on the listing, and
whether the command itself fails). -/
structure RolesWorld where
  listErr : Option String
  roles : List ListedRole
  createEffect : List ListedRole → List ListedRole
  createCmdErr : Option String

/-- The listing response delivered to `getAccountRoles` in this world. -/
def RolesWorld.listing (w : RolesWorld) : Except String (List ListedRole) :=
  match w.listErr with
  | some e => .error e
  | none => .ok w.roles

/-- The world after the external `rosa create account-roles` command ran:
its effect on the listing is whatever the environment chose. -/
def RolesWorld.afterCreate (w : RolesWorld) : RolesWorld :=
  { w with roles := w.createEffect w.roles }

/-- `CreateAccountRoles` (accountroles.go lines 40-85): get; if no roles
were found, run the create command and get again.  Returns the role set (or
`none`, modelling Go's possible `(nil, nil)` answer after creation), the
world after the call, and the trace of commands issued. -/
def CreateAccountRoles (fedRamp : Bool) (w : RolesWorld)
    (pfx version channelGroup : String) :
    Except String (Option AccountRoles × RolesWorld) × List RAction :=
  match getAccountRoles fedRamp w.listing pfx with
  | .error e => (.error ("create account roles failed: " ++ e), [.listRolesCmd])
  | .ok (some roles) => (.ok (some roles, w), [.listRolesCmd])
  | .ok none =>
    match w.createCmdErr with
    | some e =>
      (.error ("create account roles failed: error: " ++ e),
        [.listRolesCmd, .createRolesCmd pfx version channelGroup])
    | none =>
      match getAccountRoles fedRamp w.afterCreate.listing pfx with
      | .error e =>
        (.error ("create account roles failed: failed to get account roles post account roles creation: " ++ e),
          [.listRolesCmd, .createRolesCmd pfx version channelGroup, .listRolesCmd])
      | .ok res =>
        (.ok (res, w.afterCreate),
          [.listRolesCmd, .createRolesCmd pfx version channelGroup, .listRolesCmd])

/-!  ## Cluster options (src/unnamed/part_002, `rosa` package) -/

/-- `defaultAccountRolesPrefix` (part_002 line 38). -/
def defaultAccountRolesPrefix : String := "ManagedOpenShift"

/-- `CreateClusterOptions` (part_002 lines 41-85).  Durations are whole
seconds; `Properties` is the map as an association list. -/
structure CreateClusterOptions where
  FIPS : Bool
  HostedCP : Bool
  MultiAZ : Bool
  STS : Bool
  MintMode : Bool
  PrivateLink : Bool
  SkipHealthCheck : Bool
  UseDefaultAccountRolesPrefix : Bool
  EnableAutoscaling : Bool
  ETCDEncryption : Bool
  HostPrefix : Int
  Replicas : Int
  MinReplicas : Int
  MaxReplicas : Int
  ArtifactDir : String
  AdditionalTrustBundleFile : String
  ChannelGroup : String
  ClusterName : String
  ComputeMachineType : String
  HTTPProxy : String
  HTTPSProxy : String
  MachineCidr : String
  Mode : String
  NetworkType : String
  NoProxy : String
  OidcConfigID : String
  PodCIDR : String
  ServiceCIDR : String
  SubnetIDs : String
  Version : String
  WorkingDir : String
  accountRoles : AccountRoles
  Properties : List (String × String)
  InstallTimeout : Nat
  HealthCheckTimeout : Nat
  ExpirationDuration : Nat
  BillingAccountID : String
deriving DecidableEq, Repr

/-- `DeleteClusterOptions` (part_002 lines 88-103). -/
structure DeleteClusterOptions where
  ArtifactDir : String
  ClusterName : String
  WorkingDir : String
  oidcConfigID : String
  DeleteHostedVPC : Bool
  DeleteOidcConfigID : Bool
  HostedCP : Bool
  STS : Bool
  MintMode : Bool
  PrivateLink : Bool
  UninstallTimeout : Nat
deriving DecidableEq, Repr

/-- `setInstallTimeout` (part_002 lines 723-727); minutes become seconds. -/
def CreateClusterOptions.setInstallTimeout (o : CreateClusterOptions) (minutes : Nat) :
    CreateClusterOptions :=
  if o.InstallTimeout = 0 then { o with InstallTimeout := minutes * 60 } else o

/-- `setHealthCheckTimeout` (part_002 lines 729-733). -/
def CreateClusterOptions.setHealthCheckTimeout (o : CreateClusterOptions) (minutes : Nat) :
    CreateClusterOptions :=
  if o.HealthCheckTimeout = 0 then { o with HealthCheckTimeout := minutes * 60 } else o

/-- `setDefaultCreateClusterOptions` (part_002 lines 704-721); `tempDir`
stands for `os.TempDir()`. -/
def setDefaultCreateClusterOptions (o : CreateClusterOptions) (tempDir : String) :
    CreateClusterOptions :=
  let o :=
    if o.HostedCP then
      (({ o with STS := true }).setInstallTimeout 30).setHealthCheckTimeout 20
    else
      (o.setInstallTimeout 120).setHealthCheckTimeout 45
  let o := if o.ArtifactDir = "" then { o with ArtifactDir := tempDir } else o
  if o.WorkingDir = "" then { o with WorkingDir := tempDir } else o

/-- `setDefaultDeleteClusterOptions` (part_002 lines 736-753). -/
def setDefaultDeleteClusterOptions (o : DeleteClusterOptions) (tempDir : String) :
    DeleteClusterOptions :=
  let o := if o.HostedCP then { o with STS := true, DeleteHostedVPC := true } else o
  let o := if o.ArtifactDir = "" then { o with ArtifactDir := tempDir } else o
  let o := if o.WorkingDir = "" then { o with WorkingDir := tempDir } else o
  if o.UninstallTimeout = 0 then { o with UninstallTimeout := 30 * 60 } else o

/-- `validateCreateClusterOptions` (part_002 lines 355-418): collects every
violation into a list while also filling defaulted fields, and returns the
(possibly defaulted) options together with the collected violations.  The Go
function returns the single combined error
`"one or more create cluster options are missing"` when the list is
non-empty. -/
def validateCreateClusterOptions (o : CreateClusterOptions) :
    CreateClusterOptions × List String :=
  let errs : List String := []
  let errs := if o.ClusterName = "" then errs ++ ["cluster name is required"] else errs
  let o := if o.ChannelGroup = "" then { o with ChannelGroup := "stable" } else o
  let o := if o.ComputeMachineType = "" then { o with ComputeMachineType := "m5.xlarge" } else o
  let o := if o.MachineCidr = "" then { o with MachineCidr := "10.0.0.0/16" } else o
  let errs := if o.Version = "" then errs ++ ["cluster version is required"] else errs
  let o := if o.Replicas = 0 then { o with Replicas := 2 } else o
  let errs :=
    if o.HostedCP then
      let errs :=
        if o.OidcConfigID = "" then
          errs ++ ["oidc config id is required for hosted control plane clusters"]
        else errs
      if o.SubnetIDs = "" then
        errs ++ ["subnet ids is required for hosted control plane clusters"]
      else errs
    else errs
  let errs :=
    if o.HostedCP || o.STS then
      let errs :=
        if o.accountRoles.controlPlaneRoleARN = "" then
          errs ++ ["iam role arn for control plane is required"]
        else errs
      let errs :=
        if o.accountRoles.installerRoleARN = "" then
          errs ++ ["iam role arn for installer is required"]
        else errs
      let errs :=
        if o.accountRoles.supportRoleARN = "" then
          errs ++ ["iam role arn for support role is required"]
        else errs
      if o.accountRoles.workerRoleARN = "" then
        errs ++ ["iam role for worker role is required"]
      else errs
    else errs
  (o, errs)

/-!  ## The create-cluster command (part_002 lines 421-577)

The argument list of `rosa create cluster` is built exactly as in the
source; it is split here at the flat `--replicas` append (part_002 lines
532-534) into before / flat / after segments, whose concatenation is the
command line. -/

/-- The saga environment: outcomes of all external calls, ambient provider
state (`r.awsCredentials.Region`, `r.fedRamp`, `r.user.AWSAccountID`,
`r.ocmEnvironment`), and the compensation outcomes. -/
structure CompEnv where
  deleteVPCRes : Except String Unit
  deleteOIDCRes : Except String Unit
  deleteRolesRes : Except String Unit

structure CreateEnv where
  tempDir : String
  region : String
  fedRamp : Bool
  awsAccountID : String
  ocmIsProd : Bool
  expirationTimeStr : String
  nightlyWait : Except String Unit
  regionCheck : Except String Unit
  rolesWorld : RolesWorld
  createOIDC : Except String String
  createVPC : Except String (String × String)
  runCreateCmd : Except String Unit
  findClusterAfterCreate : Except String String
  installWait : Except String Unit
  kubeconfig : Except String Unit
  clientBuild : Except String Unit
  healthCheck : Except String Unit
  comp : CompEnv

/-- The normalized replica count used by the flat `--replicas` argument:
part_002 lines 508-514 raise it to 3 for multi-AZ before line 533 uses it. -/
def effectiveReplicas (o : CreateClusterOptions) : Int :=
  if o.MultiAZ ∧ o.Replicas < 3 then 3 else o.Replicas

/-- Arguments appended before the flat `--replicas` decision (part_002
lines 427-530). -/
def createArgsBeforeReplicas (o : CreateClusterOptions) (env : CreateEnv) : List String :=
  let args : List String :=
    ["create", "cluster", "--output", "json", "--cluster-name", o.ClusterName,
     "--channel-group", o.ChannelGroup, "--compute-machine-type", o.ComputeMachineType,
     "--machine-cidr", o.MachineCidr, "--region", env.region, "--version", o.Version,
     "--host-prefix", toString o.HostPrefix, "--oidc-config-id", o.OidcConfigID, "--yes"]
  let args :=
    if !o.HostedCP then
      args ++ ["--role-arn", o.accountRoles.installerRoleARN,
        "--controlplane-iam-role", o.accountRoles.controlPlaneRoleARN,
        "--support-role-arn", o.accountRoles.supportRoleARN,
        "--worker-iam-role", o.accountRoles.workerRoleARN]
    else args
  let args := if o.PodCIDR ≠ "" then args ++ ["--pod-cidr", o.PodCIDR] else args
  let args := if o.ServiceCIDR ≠ "" then args ++ ["--service-cidr", o.ServiceCIDR] else args
  let args :=
    args ++ o.Properties.foldl (fun l kv => l ++ ["--properties", kv.1 ++ ":" ++ kv.2]) []
  let args := if o.HostedCP || o.STS then args ++ ["--mode", "auto"] else args
  let args :=
    if o.HostedCP then
      args ++ ["--hosted-cp", "--oidc-config-id", o.OidcConfigID,
        "--role-arn", o.accountRoles.hcpInstallerRoleARN,
        "--support-role-arn", o.accountRoles.hcpSupportRoleARN,
        "--worker-iam-role", o.accountRoles.hcpWorkerRoleARN,
        "--billing-account", o.BillingAccountID]
    else args
  let args := if o.SubnetIDs ≠ "" then args ++ ["--subnet-ids", o.SubnetIDs] else args
  let args := if o.STS then args ++ ["--sts"] else args
  let args := if o.MintMode then args ++ ["--mint-mode"] else args
  let args :=
    if o.PrivateLink then args ++ ["--private-link", "--machine-cidr=10.0.0.0/16"] else args
  let args := if o.FIPS then args ++ ["--fips"] else args
  let args :=
    if o.NetworkType ≠ "" ∧ o.NetworkType ≠ "OVNKubernetes" then
      args ++ ["--network-type", o.NetworkType]
    else args
  let args := if o.MultiAZ then args ++ ["--multi-az"] else args
  let args := if o.EnableAutoscaling then args ++ ["--enable-autoscaling"] else args
  let args := if o.ETCDEncryption then args ++ ["--etcd-encryption"] else args
  let args :=
    if o.MinReplicas > 0 then args ++ ["--min-replicas", toString o.MinReplicas] else args
  if o.MaxReplicas > 0 then args ++ ["--max-replicas", toString o.MaxReplicas] else args

/-- The flat `--replicas` argument (part_002 lines 532-534): appended only
when neither replica bound is set. -/
def flatReplicasArgs (o : CreateClusterOptions) : List String :=
  if o.MinReplicas = 0 ∧ o.MaxReplicas = 0 then
    ["--replicas", toString (effectiveReplicas o)]
  else []

/-- Arguments appended after the flat `--replicas` decision (part_002 lines
536-557): proxy flags (only with subnets) and the expiration time. -/
def createArgsAfterReplicas (o : CreateClusterOptions) (env : CreateEnv) : List String :=
  let args : List String := []
  let args :=
    if o.SubnetIDs ≠ "" then
      let args := if o.HTTPProxy ≠ "" then args ++ ["--http-proxy", o.HTTPProxy] else args
      let args := if o.HTTPSProxy ≠ "" then args ++ ["--https-proxy", o.HTTPSProxy] else args
      let args :=
        if o.AdditionalTrustBundleFile ≠ "" then
          args ++ ["--additional-trust-bundle-file", o.AdditionalTrustBundleFile]
        else args
      if o.NoProxy ≠ "" then args ++ ["--no-proxy", o.NoProxy] else args
    else args
  if o.ExpirationDuration > 0 ∧ ¬env.ocmIsProd then
    args ++ ["--expiration-time", env.expirationTimeStr]
  else args

/-- The full `rosa create cluster` argument list (part_002 lines 427-557). -/
def buildCreateArgs (o : CreateClusterOptions) (env : CreateEnv) : List String :=
  createArgsBeforeReplicas o env ++ flatReplicasArgs o ++ createArgsAfterReplicas o env

/-- `createCluster` (part_002 lines 421-577): validate (returning the
combined error on any violation, before the create command is issued),
default the billing account from `rosa whoami`, issue the create command,
then look the cluster up to return its id. -/
def billedOptions (o : CreateClusterOptions) (env : CreateEnv) : CreateClusterOptions :=
  if o.BillingAccountID = "" then { o with BillingAccountID := env.awsAccountID } else o

def createClusterStep (o : CreateClusterOptions) (env : CreateEnv) :
    Except String String × List RAction :=
  match validateCreateClusterOptions o with
  | (_, _ :: _) =>
    (.error "cluster options validation failed: one or more create cluster options are missing", [])
  | (o1, []) =>
    let o2 := billedOptions o1 env
    let args := buildCreateArgs o2 env
    match env.runCreateCmd with
    | .error e => (.error ("error: " ++ e), [.createClusterCmd args])
    | .ok _ =>
      match env.findClusterAfterCreate with
      | .error e => (.error e, [.createClusterCmd args, .findClusterCall o2.ClusterName])
      | .ok cid => (.ok cid, [.createClusterCmd args, .findClusterCall o2.ClusterName])

/-!  ## The creation saga (`CreateCluster`, part_002 lines 150-281) -/

/-- `createdResources` (part_002 lines 117-124): the in-memory tracker of
what this attempt created, driving compensation. -/
structure CreatedResources where
  createdVPC : Bool
  clusterName : String
  accountRolesPrefix : String
  oidcConfigID : String
  region : String
  workingDir : String
deriving DecidableEq, Repr

/-- `clusterError` (part_002 lines 106-114). -/
structure ClusterError where
  action : String
  err : String
deriving DecidableEq, Repr

/-- One compensating call of `cleanup`: the call is made and its outcome is
only logged — both branches behave identically apart from the log line
(part_002 lines 128-133 etc.). -/
def compGuard (res : Except String Unit) (a : RAction) : List RAction :=
  match res with
  | .ok _ => [a]
  | .error _ => [a]

/-- `cleanup` (part_002 lines 127-148): compensate in reverse creation
order — VPC, then OIDC config, then account roles — exactly the resources
the tracker recorded; a compensating action's failure never stops the
remaining ones. -/
def cleanup (comp : CompEnv) (r : CreatedResources) : List RAction :=
  (if r.createdVPC then
    compGuard comp.deleteVPCRes (.deleteVPCCall r.clusterName r.region r.workingDir)
  else []) ++
  (if r.oidcConfigID ≠ "" then
    compGuard comp.deleteOIDCRes (.deleteOIDCCall r.oidcConfigID)
  else []) ++
  (if r.accountRolesPrefix ≠ "" then
    compGuard comp.deleteRolesRes (.deleteRolesCmd r.accountRolesPrefix)
  else [])

/-- The compensating calls as a function of the tracker alone. -/
def cleanupActions (r : CreatedResources) : List RAction :=
  (if r.createdVPC then [.deleteVPCCall r.clusterName r.region r.workingDir] else []) ++
  (if r.oidcConfigID ≠ "" then [.deleteOIDCCall r.oidcConfigID] else []) ++
  (if r.accountRolesPrefix ≠ "" then [.deleteRolesCmd r.accountRolesPrefix] else [])

/-- The phase of `CreateCluster` whose failure produced the returned error.
`panicDeref` marks the nil-pointer dereference Go would hit at part_002
line 204 when `CreateAccountRoles` answers `(nil, nil)`. -/
inductive SagaPhase where
  | nightly
  | region
  | versionParse
  | accountRoles
  | panicDeref
  | oidc
  | vpc
  | createCall
  | installWait
  | kubeconfig
  | clientBuild
  | health
deriving DecidableEq, Repr

/-- Result of one `CreateCluster` run: the returned cluster id and error,
the full trace of external calls, the tracker state at return, and (ghost
data for the theorems) which phase failed and the raw error it raised. -/
structure SagaOut where
  clusterID : String
  err : Option ClusterError
  trace : List RAction
  tracked : CreatedResources
  failedPhase : Option SagaPhase
  origErr : Option String
deriving DecidableEq, Repr

/-- Build the failure outcome: the raw phase error `e` is wrapped once into
`clusterError{action: "create"}` (part_002's `&clusterError{...}`). -/
def sagaFail (cid e : String) (tr : List RAction) (res : CreatedResources)
    (p : SagaPhase) : SagaOut :=
  ⟨cid, some ⟨"create", e⟩, tr, res, some p, some e⟩

/-- Build the success outcome. -/
def sagaOk (cid : String) (tr : List RAction) (res : CreatedResources) : SagaOut :=
  ⟨cid, none, tr, res, none, none⟩

/-- Install wait and health check (part_002 lines 251-280): failures after
the create call return the cluster id and the error without compensation. -/
def sagaInstallStage (opts : CreateClusterOptions) (env : CreateEnv) (cid : String)
    (tr : List RAction) (res : CreatedResources) : SagaOut :=
  let tr := tr ++ [.installWaitCall cid]
  match env.installWait with
  | .error e => sagaFail cid e tr res .installWait
  | .ok _ =>
    if !opts.SkipHealthCheck then
      let tr := tr ++ [.kubeconfigCall cid]
      match env.kubeconfig with
      | .error e => sagaFail cid e tr res .kubeconfig
      | .ok _ =>
        let tr := tr ++ [.clientBuildCall]
        match env.clientBuild with
        | .error e => sagaFail cid e tr res .clientBuild
        | .ok _ =>
          let tr := tr ++ [.healthCheckCall opts.ClusterName]
          match env.healthCheck with
          | .error e => sagaFail cid e tr res .health
          | .ok _ => sagaOk cid tr res
    else sagaOk cid tr res

/-- The cluster-create call (part_002 lines 244-249): on failure the
tracked resources are compensated and the error is returned. -/
def sagaCreateStage (opts : CreateClusterOptions) (env : CreateEnv)
    (tr : List RAction) (res : CreatedResources) : SagaOut :=
  match createClusterStep opts env with
  | (.error e, tc) => sagaFail "" e (tr ++ tc ++ cleanup env.comp res) res .createCall
  | (.ok cid, tc) => sagaInstallStage opts env cid (tr ++ tc) res

/-- The network-stack phase (part_002 lines 225-242): provision a VPC only
for hosted-CP or private-link topologies and only when the caller supplied
no subnets; a newly created VPC is tracked for compensation. -/
def sagaVPCStage (opts : CreateClusterOptions) (env : CreateEnv)
    (tr : List RAction) (res : CreatedResources) : SagaOut :=
  if opts.HostedCP || opts.PrivateLink then
    if opts.SubnetIDs = "" then
      let call : RAction :=
        .createVPCCall opts.ClusterName env.region opts.WorkingDir opts.HostedCP opts.PrivateLink
      match env.createVPC with
      | .error e => sagaFail "" e (tr ++ [call] ++ cleanup env.comp res) res .vpc
      | .ok (privSub, pubSub) =>
        let opts := { opts with SubnetIDs := privSub ++ "," ++ pubSub }
        let res := { res with createdVPC := true }
        sagaCreateStage opts env (tr ++ [call]) res
    else sagaCreateStage opts env tr res
  else sagaCreateStage opts env tr res

/-- The account-roles prefix (part_002 lines 195-198): the cluster name,
or the versioned default prefix when requested. -/
def rolesPfxFor (opts : CreateClusterOptions) (majorMinor : String) : String :=
  if opts.UseDefaultAccountRolesPrefix then defaultAccountRolesPrefix ++ "-" ++ majorMinor
  else opts.ClusterName

/-- Tracking of the account-roles prefix (part_002 lines 206-209): only a
custom (non-default) prefix is recorded for cleanup — whether or not the
role set pre-existed. -/
def trackRolesPfx (useDefault : Bool) (rolesPfx : String) (res : CreatedResources) :
    CreatedResources :=
  if !useDefault then { res with accountRolesPrefix := rolesPfx } else res

def sagaRolesStage (opts : CreateClusterOptions) (env : CreateEnv)
    (tr : List RAction) (res : CreatedResources) : SagaOut :=
  if opts.HostedCP || opts.STS then
    match parseSemVerStr opts.Version with
    | none =>
      sagaFail "" ("failed to parse version (" ++ opts.Version ++ ") into semantic version")
        tr res .versionParse
    | some v =>
      let majorMinor := toString v.major ++ "." ++ toString v.minor
      let rolesPfx := rolesPfxFor opts majorMinor
      match CreateAccountRoles env.fedRamp env.rolesWorld rolesPfx majorMinor opts.ChannelGroup with
      | (.error e, ta) => sagaFail "" e (tr ++ ta) res .accountRoles
      | (.ok (none, _), ta) =>
        sagaFail "" "panic: nil account roles dereference" (tr ++ ta) res .panicDeref
      | (.ok (some roles, _), ta) =>
        let opts := { opts with accountRoles := roles }
        let res := trackRolesPfx opts.UseDefaultAccountRolesPrefix rolesPfx res
        if opts.OidcConfigID = "" then
          let call : RAction := .createOIDCCall opts.ClusterName roles.installerRoleARN
          match env.createOIDC with
          | .error e => sagaFail "" e (tr ++ ta ++ [call] ++ cleanup env.comp res) res .oidc
          | .ok oid =>
            let opts := { opts with OidcConfigID := oid }
            let res := { res with oidcConfigID := oid }
            sagaVPCStage opts env (tr ++ ta ++ [call]) res
        else sagaVPCStage opts env (tr ++ ta) res
  else sagaVPCStage opts env tr res

/-- `CreateCluster` (part_002 lines 151-281): default the options, wait for
a nightly version when requested, check the region, then run the
dependency-provisioning phases, the create call, the install wait and the
health check. -/
def CreateCluster (opts0 : CreateClusterOptions) (env : CreateEnv) : SagaOut :=
  let opts := setDefaultCreateClusterOptions opts0 env.tempDir
  let res0 : CreatedResources :=
    ⟨false, opts.ClusterName, "", "", env.region, opts.WorkingDir⟩
  let tN : List RAction := if opts.ChannelGroup = "nightly" then [.nightlyWaitCall] else []
  let nightlyRes : Except String Unit :=
    if opts.ChannelGroup = "nightly" then env.nightlyWait else .ok ()
  match nightlyRes with
  | .error e => sagaFail "" e tN res0 .nightly
  | .ok _ =>
    let tr := tN ++ [.regionCheckCall env.region]
    match env.regionCheck with
    | .error e => sagaFail "" e tr res0 .region
    | .ok _ => sagaRolesStage opts env tr res0

/-!  ## The deletion saga (`DeleteCluster`, part_002 lines 284-352) -/

/-- The fields of the live cluster record (`*clustersmgmtv1.Cluster`) that
`DeleteCluster` reads: `ID()`, `Name()`, `AWS().STS().RoleARN()`,
`AWS().STS().OperatorRolePrefix()`, `AWS().STS().OidcConfig().ID()`. -/
structure ClusterRec where
  id : String
  name : String
  stsRoleARN : String
  operatorRolePfx : String
  oidcConfigID : String
deriving DecidableEq, Repr

/-- Environment of one `DeleteCluster` run: outcome of every external call. -/
structure DeleteEnv where
  tempDir : String
  region : String
  findCluster : Except String ClusterRec
  deleteCmd : Except String Unit
  deleteWait : Except String Unit
  deleteOperatorRoles : Except String Unit
  deleteOIDCProvider : Except String Unit
  deleteOIDCConfigRes : Except String Unit
  deleteVPCRes : Except String Unit
  deleteRolesRes : Except String Unit

/-- The account-roles phase of `DeleteCluster` (part_002 lines 342-349):
for an STS cluster, delete the account roles under the cluster-name prefix
unless the live installer role ARN contains the default-prefix marker. -/
def deleteRolesPhase (opts : DeleteClusterOptions) (env : DeleteEnv) (cl : ClusterRec)
    (tr : List RAction) : Option ClusterError × List RAction :=
  if opts.STS then
    if !(strContains cl.stsRoleARN defaultAccountRolesPrefix) then
      match env.deleteRolesRes with
      | .error e => (some ⟨"delete", e⟩, tr ++ [.deleteRolesCmd opts.ClusterName])
      | .ok _ => (none, tr ++ [.deleteRolesCmd opts.ClusterName])
    else (none, tr)
  else (none, tr)

/-- The hosted-VPC teardown of `DeleteCluster` (part_002 lines 329-339). -/
def deleteVPCPhase (opts : DeleteClusterOptions) (env : DeleteEnv) (cl : ClusterRec)
    (tr : List RAction) : Option ClusterError × List RAction :=
  if opts.DeleteHostedVPC then
    match env.deleteVPCRes with
    | .error e => (some ⟨"delete", e⟩, tr ++ [.deleteVPCCall cl.name env.region opts.WorkingDir])
    | .ok _ => deleteRolesPhase opts env cl (tr ++ [.deleteVPCCall cl.name env.region opts.WorkingDir])
  else deleteRolesPhase opts env cl tr

/-- The hosted/private-link cleanup block of `DeleteCluster` (part_002
lines 321-340): optional OIDC config deletion, then optional VPC
teardown, then the account-roles phase. -/
def deleteHostedPhase (opts : DeleteClusterOptions) (env : DeleteEnv) (cl : ClusterRec)
    (tr : List RAction) : Option ClusterError × List RAction :=
  if opts.HostedCP || opts.PrivateLink then
    if opts.DeleteOidcConfigID then
      match env.deleteOIDCConfigRes with
      | .error e => (some ⟨"delete", e⟩, tr ++ [.deleteOIDCCall opts.oidcConfigID])
      | .ok _ => deleteVPCPhase opts env cl (tr ++ [.deleteOIDCCall opts.oidcConfigID])
    else deleteVPCPhase opts env cl tr
  else deleteRolesPhase opts env cl tr

/-- The STS/private-link block of `DeleteCluster` (part_002 lines
308-319): delete the operator roles, then the OIDC provider, each failure
aborting the deletion saga. -/
def deleteOpRolesPhase (opts : DeleteClusterOptions) (env : DeleteEnv) (cl : ClusterRec)
    (tr : List RAction) : Option ClusterError × List RAction :=
  if opts.STS || opts.PrivateLink then
    let tr := tr ++ [.deleteOperatorRolesCall cl.id cl.operatorRolePfx opts.oidcConfigID]
    match env.deleteOperatorRoles with
    | .error e => (some ⟨"delete", e⟩, tr)
    | .ok _ =>
      let tr := tr ++ [.deleteOIDCProviderCall cl.id opts.oidcConfigID]
      match env.deleteOIDCProvider with
      | .error e => (some ⟨"delete", e⟩, tr)
      | .ok _ => deleteHostedPhase opts env cl tr
  else deleteHostedPhase opts env cl tr

/-- `DeleteCluster` (part_002 lines 284-352): locate the live cluster,
derive the OIDC config id from it for hosted/private-link topologies, issue
the delete, wait for disappearance, then delete operator roles and the OIDC
provider (STS or private-link), optionally the OIDC config and the VPC
(hosted or private-link), and finally the account roles — the latter only
when the live installer role ARN does not carry the default prefix marker. -/
def deleteClusterFound (opts1 : DeleteClusterOptions) (env : DeleteEnv) (cl : ClusterRec) :
    Option ClusterError × List RAction :=
  let opts :=
    if opts1.HostedCP || opts1.PrivateLink then { opts1 with oidcConfigID := cl.oidcConfigID }
    else opts1
  let tr : List RAction := [.findClusterCall opts.ClusterName]
  if cl.id = "" then
    (some ⟨"delete", "cluster ID is undefined and is required"⟩, tr)
  else
    match env.deleteCmd with
    | .error e => (some ⟨"delete", "error: " ++ e⟩, tr ++ [.deleteClusterCmd cl.id])
    | .ok _ =>
      let tr := tr ++ [.deleteClusterCmd cl.id, .deleteWaitCall cl.name]
      match env.deleteWait with
      | .error e => (some ⟨"delete", e⟩, tr)
      | .ok _ => deleteOpRolesPhase opts env cl tr

def DeleteClusterGo (opts1 : DeleteClusterOptions) (env : DeleteEnv) :
    Option ClusterError × List RAction :=
  match env.findCluster with
  | .error e =>
    (some ⟨"delete", "failed to locate cluster in ocm environment: " ++ e⟩,
      [.findClusterCall opts1.ClusterName])
  | .ok cl => deleteClusterFound opts1 env cl

/-- `DeleteCluster` (part_002 line 287): default the options, then run. -/
def DeleteCluster (opts0 : DeleteClusterOptions) (env : DeleteEnv) :
    Option ClusterError × List RAction :=
  DeleteClusterGo (setDefaultDeleteClusterOptions opts0 env.tempDir) env

/-!  ## The condition poller and the two bounded waits

Modelled from the spec: the poll loop itself is the external
`sigs.k8s.io/e2e-framework/klient/wait.For` collaborator, whose contract is
§4.1 of the spec (Condition Poller): invoke the predicate repeatedly at the
fixed interval, stop immediately with its error when it returns one, stop
successfully when it returns true, and give up when the timeout elapses.
The i-th invocation happens at time `i * interval`; within a bound of
`timeout` seconds there are `timeout / interval` invocations. -/

/-- Outcome of the poll loop, carrying the number of predicate invocations
actually made. -/
inductive PollOutcome where
  | succeeded (polls : Nat)
  | timedOut (polls : Nat)
  | failed (e : String) (polls : Nat)
deriving DecidableEq, Repr

/-- The poll loop: `check i` is the i-th predicate invocation's result. -/
def pollGo (check : Nat → Bool × Option String) (i : Nat) : Nat → PollOutcome
  | 0 => .timedOut i
  | fuel + 1 =>
    match check i with
    | (_, some e) => .failed e (i + 1)
    | (true, none) => .succeeded (i + 1)
    | (false, none) => pollGo check (i + 1) fuel

/-- `wait.For` with `wait.WithTimeout` and `wait.WithInterval` (seconds). -/
def pollFor (check : Nat → Bool × Option String) (timeoutSec intervalSec : Nat) : PollOutcome :=
  pollGo check 0 (timeoutSec / intervalSec)

/-- Go `time.Duration.String` for whole-second durations (the rendering
`%q` applies to the timeout in the install-wait error message). -/
def goDuration (n : Nat) : String :=
  if n = 0 then "0s"
  else
    let h := n / 3600
    let m := (n % 3600) / 60
    let s := n % 60
    if h > 0 then toString h ++ "h" ++ toString m ++ "m" ++ toString s ++ "s"
    else if m > 0 then toString m ++ "m" ++ toString s ++ "s"
    else toString s ++ "s"

/-- The predicate of `waitForClusterToBeInstalled` (part_002 lines 646-659):
a `describe cluster` failure aborts, a state other than `ready` retries. -/
def installedCheck (getClusterState : Nat → Except String String) (i : Nat) :
    Bool × Option String :=
  match getClusterState i with
  | .error e => (false, some e)
  | .ok st => (st = "ready", none)

/-- `waitForClusterToBeInstalled` (part_002 lines 621-664): polls at a 30
second interval; any `wait.For` error is wrapped into a message that names
the cluster and the allotted timeout. -/
def waitForClusterToBeInstalledM (getClusterState : Nat → Except String String)
    (clusterID : String) (timeoutSec : Nat) : Except String Unit :=
  match pollFor (installedCheck getClusterState) timeoutSec 30 with
  | .succeeded _ => .ok ()
  | .timedOut _ =>
    .error ("cluster \"" ++ clusterID ++ "\" failed to enter ready state in the alloted time \""
      ++ goDuration timeoutSec ++ "\": timed out waiting for the condition")
  | .failed e _ =>
    .error ("cluster \"" ++ clusterID ++ "\" failed to enter ready state in the alloted time \""
      ++ goDuration timeoutSec ++ "\": " ++ e)

/-- The predicate of `waitForClusterToBeDeleted` (part_002 lines 687-696):
the cluster still being found means keep waiting; it never returns an
error (a lookup failure is taken as "the cluster no longer exists"). -/
def deletedCheck (clusterGone : Nat → Bool) (i : Nat) : Bool × Option String :=
  (clusterGone i, none)

/-- `waitForClusterToBeDeleted` (part_002 lines 680-701): polls at a 30
second interval; any `wait.For` error becomes a fixed message naming the
cluster but not the timeout value. -/
def waitForClusterToBeDeletedM (clusterGone : Nat → Bool) (clusterName : String)
    (timeoutSec : Nat) : Except String Unit :=
  match pollFor (deletedCheck clusterGone) timeoutSec 30 with
  | .succeeded _ => .ok ()
  | .timedOut _ =>
    .error ("cluster \"" ++ clusterName ++ "\" failed to finish uninstalling in the alloted time")
  | .failed _ _ =>
    .error ("cluster \"" ++ clusterName ++ "\" failed to finish uninstalling in the alloted time")

/-!  ## Concrete fixtures shared by witnesses and counterexamples -/

/-- A zero-valued `CreateClusterOptions` record, the starting point for the
concrete scenarios below. -/
def baseCreateOpts : CreateClusterOptions where
  FIPS := false
  HostedCP := false
  MultiAZ := false
  STS := false
  MintMode := false
  PrivateLink := false
  SkipHealthCheck := false
  UseDefaultAccountRolesPrefix := false
  EnableAutoscaling := false
  ETCDEncryption := false
  HostPrefix := 0
  Replicas := 0
  MinReplicas := 0
  MaxReplicas := 0
  ArtifactDir := ""
  AdditionalTrustBundleFile := ""
  ChannelGroup := ""
  ClusterName := ""
  ComputeMachineType := ""
  HTTPProxy := ""
  HTTPSProxy := ""
  MachineCidr := ""
  Mode := ""
  NetworkType := ""
  NoProxy := ""
  OidcConfigID := ""
  PodCIDR := ""
  ServiceCIDR := ""
  SubnetIDs := ""
  Version := ""
  WorkingDir := ""
  accountRoles := AccountRoles.empty
  Properties := []
  InstallTimeout := 0
  HealthCheckTimeout := 0
  ExpirationDuration := 0
  BillingAccountID := ""

/-- A zero-valued `DeleteClusterOptions` record. -/
def baseDeleteOpts : DeleteClusterOptions where
  ArtifactDir := ""
  ClusterName := ""
  WorkingDir := ""
  oidcConfigID := ""
  DeleteHostedVPC := false
  DeleteOidcConfigID := false
  HostedCP := false
  STS := false
  MintMode := false
  PrivateLink := false
  UninstallTimeout := 0

/-!  ## C10 -/

/-- C10: after option defaulting, HostedCP implies STS:
`setDefaultCreateClusterOptions` and `setDefaultDeleteClusterOptions` force
`STS := true` whenever `HostedCP` is true, and delete defaulting
additionally forces `DeleteHostedVPC := true`, so hosted-control-plane
clusters take the STS code paths even when the caller left STS unset. -/
theorem c10_defaulting_hostedcp_forces_sts (o : CreateClusterOptions)
    (d : DeleteClusterOptions) (td : String)
    (ho : o.HostedCP = true) (hd : d.HostedCP = true) :
    (setDefaultCreateClusterOptions o td).STS = true ∧
    (setDefaultDeleteClusterOptions d td).STS = true ∧
    (setDefaultDeleteClusterOptions d td).DeleteHostedVPC = true := by
  unfold setDefaultCreateClusterOptions setDefaultDeleteClusterOptions
    CreateClusterOptions.setInstallTimeout CreateClusterOptions.setHealthCheckTimeout
  simp only [ho, hd, if_true]
  refine ⟨?_, ?_, ?_⟩ <;> (repeat' split) <;> rfl

/-- Witness for C10 at a concrete hosted-control-plane option pair. -/
theorem c10_defaulting_hostedcp_forces_sts_witness :
    (setDefaultCreateClusterOptions { baseCreateOpts with HostedCP := true } "/tmp").STS = true ∧
    (setDefaultDeleteClusterOptions { baseDeleteOpts with HostedCP := true } "/tmp").STS = true ∧
    (setDefaultDeleteClusterOptions { baseDeleteOpts with HostedCP := true } "/tmp").DeleteHostedVPC = true :=
  c10_defaulting_hostedcp_forces_sts { baseCreateOpts with HostedCP := true }
    { baseDeleteOpts with HostedCP := true } "/tmp" rfl rfl

/-!  ## C3: role-count validation in `getAccountRoles` -/

/-- Four commercial (non-HCP) roles under the custom role prefix `p`. -/
def classic4Roles : List ListedRole :=
  [⟨"p-ControlPlane-Role", "arn:cp", "Control plane"⟩,
   ⟨"p-Installer-Role", "arn:inst", "Installer"⟩,
   ⟨"p-Support-Role", "arn:sup", "Support"⟩,
   ⟨"p-Worker-Role", "arn:wrk", "Worker"⟩]

/-- The three hosted-control-plane variant roles under the prefix `p`. -/
def hcp3Roles : List ListedRole :=
  [⟨"p-HCP-ROSA-Installer-Role", "arn:hcp-inst", "Installer"⟩,
   ⟨"p-HCP-ROSA-Support-Role", "arn:hcp-sup", "Support"⟩,
   ⟨"p-HCP-ROSA-Worker-Role", "arn:hcp-wrk", "Worker"⟩]

/-- A complete seven-role set under the prefix `p`. -/
def full7Roles : List ListedRole := classic4Roles ++ hcp3Roles

/-- The `AccountRoles` value `getAccountRoles` assembles from `full7Roles`. -/
def roles7val : AccountRoles :=
  ⟨"arn:cp", "arn:inst", "arn:sup", "arn:wrk", "arn:hcp-inst", "arn:hcp-sup", "arn:hcp-wrk"⟩

/-- C3 counterexample: a standard (non-FedRamp) account with a discovered
set of exactly 4 commercial roles is rejected with a hard error — the code
has no notion of "hosted-control-plane roles expected" and never accepts a
4-role set outside the restricted partition; conversely a FedRamp account
with 7 discovered roles is accepted, so 4 is not the only accepted non-zero
count there either. -/
theorem c3_counterexample :
    getAccountRoles false (.ok classic4Roles) "p"
        = .error "one or more prefixed p account roles does not exist" ∧
    getAccountRoles true (.ok full7Roles) "p" = .ok (some roles7val) :=
  ⟨rfl, rfl⟩

/-- C3 amended: for a discovered role set matching a prefix, a FedRamp
account accepts exactly 4 roles, any account accepts exactly 7, an empty
match means "no roles" (`none`), and every other non-zero count is a hard
error for which no partial role set is returned, regardless of whether
hosted-control-plane roles are expected. -/
theorem c3_amended_role_count_validation (fedRamp : Bool) (rows : List ListedRole)
    (pfx : String) (r : AccountRoles) (n : Nat)
    (hscan : accountRolesScan pfx rows = (r, n)) :
    (n = 0 → getAccountRoles fedRamp (.ok rows) pfx = .ok none) ∧
    (fedRamp = true ∧ n = fedRampRolesCount →
      getAccountRoles fedRamp (.ok rows) pfx = .ok (some r)) ∧
    (n = commercialRolesCount → getAccountRoles fedRamp (.ok rows) pfx = .ok (some r)) ∧
    (¬(fedRamp = true ∧ n = fedRampRolesCount) → n ≠ 0 → n ≠ commercialRolesCount →
      getAccountRoles fedRamp (.ok rows) pfx
        = .error ("one or more prefixed " ++ pfx ++ " account roles does not exist")) := by
  simp only [getAccountRoles, hscan]
  refine ⟨?_, ?_, ?_, ?_⟩
  · intro h0
    subst h0
    simp
  · rintro ⟨hf, h4⟩
    subst hf h4
    simp [fedRampRolesCount]
  · intro h7
    subst h7
    simp [commercialRolesCount, fedRampRolesCount]
  · intro hnot hn0 hn7
    have h1 : (n == 0) = false := by simp [hn0]
    have h2 : (fedRamp && n == fedRampRolesCount) = false := by
      cases fedRamp
      · simp
      · simp only [Bool.true_and]
        simp only [not_and, forall_const] at hnot
        simp [hnot]
    have h3 : (n != commercialRolesCount) = true := by simp [hn7]
    simp [h1, h2, h3]

/-- Witness for C3 amended: the seven-role standard-account case. -/
theorem c3_amended_role_count_validation_witness :
    getAccountRoles false (.ok full7Roles) "p" = .ok (some roles7val) :=
  (c3_amended_role_count_validation false full7Roles "p" roles7val 7 rfl).2.2.1 rfl

/-!  ## C5: idempotence of get-or-create for account roles -/

/-- C5: whenever a `CreateAccountRoles` call succeeds with a role set, an
immediately repeated call (against the world the first call left behind)
returns the identical role set and issues no `create account-roles`
command: the get finds the non-empty valid set and returns it directly. -/
theorem c5_account_roles_get_or_create_idempotent (fedRamp : Bool) (w : RolesWorld)
    (pfx ver ch : String) (R : AccountRoles) (w' : RolesWorld)
    (h : (CreateAccountRoles fedRamp w pfx ver ch).1 = .ok (some R, w')) :
    (CreateAccountRoles fedRamp w' pfx ver ch).1 = .ok (some R, w') ∧
    ∀ p v c, RAction.createRolesCmd p v c ∉ (CreateAccountRoles fedRamp w' pfx ver ch).2 := by
  unfold CreateAccountRoles at h ⊢
  cases h1 : getAccountRoles fedRamp w.listing pfx with
  | error e => rw [h1] at h; simp at h
  | ok res =>
    rw [h1] at h
    cases res with
    | some roles =>
      simp at h
      obtain ⟨hr, hw⟩ := h
      subst hr hw
      rw [h1]
      simp
    | none =>
      cases h2 : w.createCmdErr with
      | some e => rw [h2] at h; simp at h
      | none =>
        rw [h2] at h
        cases h3 : getAccountRoles fedRamp w.afterCreate.listing pfx with
        | error e => rw [h3] at h; simp at h
        | ok res2 =>
          rw [h3] at h
          simp at h
          obtain ⟨hr, hw⟩ := h
          subst hw
          rw [hr] at h3
          rw [h3]
          simp

/-- A world already holding the complete seven-role set. -/
def rolesWorld7 : RolesWorld := ⟨none, full7Roles, fun l => l, none⟩

/-- Witness for C5: with the seven matching roles already present, the
first call returns them directly and the second call is identical, with no
create command in its trace. -/
theorem c5_account_roles_get_or_create_idempotent_witness :
    (CreateAccountRoles false rolesWorld7 "p" "4.14" "stable").1
        = .ok (some roles7val, rolesWorld7) ∧
    ((CreateAccountRoles false rolesWorld7 "p" "4.14" "stable").1
        = .ok (some roles7val, rolesWorld7) ∧
      ∀ p v c, RAction.createRolesCmd p v c ∉
        (CreateAccountRoles false rolesWorld7 "p" "4.14" "stable").2) :=
  ⟨rfl, c5_account_roles_get_or_create_idempotent false rolesWorld7 "p" "4.14" "stable"
    roles7val rolesWorld7 rfl⟩

/-!  ## C7: version filtering -/

/-- Membership characterization of one constraint pass: an `ok` result
holds exactly the candidates whose raw id parses and satisfies the
constraint. -/
theorem filterOnePass_ok_mem (c : SemConstraint) :
    ∀ (vs out : List RosaVersion), filterOnePass c vs = .ok out →
      ∀ v, v ∈ out ↔ v ∈ vs ∧ ∃ pv, parseSemVerStr v.RawID = some pv ∧
        constraintCheck c pv = true := by
  intro vs
  induction vs with
  | nil =>
    intro out h v
    simp only [filterOnePass] at h
    cases h
    simp
  | cons hd tl ih =>
    intro out h v
    simp only [filterOnePass] at h
    cases hp : parseSemVerStr hd.RawID with
    | none => rw [hp] at h; cases h
    | some pv =>
      rw [hp] at h
      cases ht : filterOnePass c tl with
      | error e => rw [ht] at h; cases h
      | ok tail =>
        rw [ht] at h
        injection h with hout
        subst hout
        have hmem := ih tail ht
        by_cases hc : constraintCheck c pv = true
        · rw [if_pos hc]
          constructor
          · intro hv
            rcases List.mem_cons.mp hv with rfl | hv'
            · exact ⟨List.mem_cons_self _ _, pv, hp, hc⟩
            · obtain ⟨hvtl, pv', hp', hc'⟩ := (hmem v).mp hv'
              exact ⟨List.mem_cons_of_mem _ hvtl, pv', hp', hc'⟩
          · rintro ⟨hv, pv', hp', hc'⟩
            rcases List.mem_cons.mp hv with rfl | hvtl
            · exact List.mem_cons_self _ _
            · exact List.mem_cons_of_mem _ ((hmem v).mpr ⟨hvtl, pv', hp', hc'⟩)
        · rw [if_neg hc]
          constructor
          · intro hv
            obtain ⟨hvtl, pv', hp', hc'⟩ := (hmem v).mp hv
            exact ⟨List.mem_cons_of_mem _ hvtl, pv', hp', hc'⟩
          · rintro ⟨hv, pv', hp', hc'⟩
            rcases List.mem_cons.mp hv with rfl | hvtl
            · rw [hp] at hp'
              injection hp' with hpe
              rw [← hpe] at hc'
              exact absurd hc' hc
            · exact (hmem v).mpr ⟨hvtl, pv', hp', hc'⟩

/-- A pass aborts with an error whenever some candidate's raw id is
unparseable. -/
theorem filterOnePass_error_of_bad_version (c : SemConstraint) :
    ∀ vs : List RosaVersion, (∃ v ∈ vs, parseSemVerStr v.RawID = none) →
      ∃ e, filterOnePass c vs = .error e := by
  intro vs
  induction vs with
  | nil =>
    rintro ⟨v, hv, _⟩
    cases hv
  | cons hd tl ih =>
    rintro ⟨v, hv, hnone⟩
    rcases List.mem_cons.mp hv with rfl | hvtl
    · exact ⟨"failed to build version", by simp [filterOnePass, hnone]⟩
    · cases hp : parseSemVerStr hd.RawID with
      | none => exact ⟨"failed to build version", by simp [filterOnePass, hp]⟩
      | some pv =>
        obtain ⟨e, he⟩ := ih ⟨v, hvtl, hnone⟩
        exact ⟨e, by simp [filterOnePass, hp, he]⟩

/-- Membership characterization of the whole constraint loop: union
(accumulation) across constraints. -/
theorem filterVersionsLoop_ok_mem (vs : List RosaVersion) :
    ∀ (cs : List String) (out : List RosaVersion), filterVersionsLoop vs cs = .ok out →
      ∀ v, v ∈ out ↔ v ∈ vs ∧ ∃ c ∈ cs, ∃ con pv, parseConstraintStr c = some con ∧
        parseSemVerStr v.RawID = some pv ∧ constraintCheck con pv = true := by
  intro cs
  induction cs with
  | nil =>
    intro out h v
    simp only [filterVersionsLoop] at h
    cases h
    simp
  | cons c0 cs ih =>
    intro out h v
    simp only [filterVersionsLoop] at h
    split at h
    · cases h
    · rename_i con hpc
      split at h
      · cases h
      · rename_i l h1
        split at h
        · cases h
        · rename_i ls h2
          injection h with hout
          subst hout
          have hm1 := filterOnePass_ok_mem con vs l h1 v
          have hm2 := ih ls h2 v
          rw [List.mem_append, hm1, hm2]
          constructor
          · rintro (⟨hv, pv, hp, hc⟩ | ⟨hv, c, hcs, rest⟩)
            · exact ⟨hv, c0, List.mem_cons_self _ _, con, pv, hpc, hp, hc⟩
            · exact ⟨hv, c, List.mem_cons_of_mem _ hcs, rest⟩
          · rintro ⟨hv, c, hcmem, con', pv, hpc', hp, hcc⟩
            rcases List.mem_cons.mp hcmem with rfl | hcs
            · rw [hpc] at hpc'
              injection hpc' with hcon
              subst hcon
              exact Or.inl ⟨hv, pv, hp, hcc⟩
            · exact Or.inr ⟨hv, c, hcs, con', pv, hpc', hp, hcc⟩

/-- The loop aborts with an error whenever some constraint string is
unparseable. -/
theorem filterVersionsLoop_error_of_bad_constraint (vs : List RosaVersion) :
    ∀ cs : List String, (∃ c ∈ cs, parseConstraintStr c = none) →
      ∃ e, filterVersionsLoop vs cs = .error e := by
  intro cs
  induction cs with
  | nil =>
    rintro ⟨c, hc, _⟩
    cases hc
  | cons c0 cs ih =>
    rintro ⟨c, hc, hnone⟩
    rcases List.mem_cons.mp hc with rfl | hcs
    · exact ⟨"unable to build a constraint from " ++ c, by simp [filterVersionsLoop, hnone]⟩
    · cases hpc : parseConstraintStr c0 with
      | none =>
        exact ⟨"unable to build a constraint from " ++ c0, by simp [filterVersionsLoop, hpc]⟩
      | some con =>
        cases h1 : filterOnePass con vs with
        | error e => exact ⟨e, by simp [filterVersionsLoop, hpc, h1]⟩
        | ok l =>
          obtain ⟨e, he⟩ := ih ⟨c, hcs, hnone⟩
          exact ⟨e, by simp [filterVersionsLoop, hpc, h1, he]⟩

/-- With at least one constraint, an unparseable candidate version aborts
the loop with an error. -/
theorem filterVersionsLoop_error_of_bad_version (vs : List RosaVersion) (cs : List String)
    (hne : cs ≠ []) (hbad : ∃ v ∈ vs, parseSemVerStr v.RawID = none) :
    ∃ e, filterVersionsLoop vs cs = .error e := by
  cases cs with
  | nil => exact absurd rfl hne
  | cons c0 cs =>
    cases hpc : parseConstraintStr c0 with
    | none =>
      exact ⟨"unable to build a constraint from " ++ c0, by simp [filterVersionsLoop, hpc]⟩
    | some con =>
      obtain ⟨e, he⟩ := filterOnePass_error_of_bad_version con vs hbad
      exact ⟨e, by simp [filterVersionsLoop, hpc, he]⟩

/-- A version record whose ids are the given raw version string. -/
def mkVer (raw : String) : RosaVersion :=
  ⟨raw, "", [], "stable", "", raw, "", true, false, true, true⟩

/-- The example candidate list 4.12.0 / 4.13.1 / 4.14.0. -/
def exampleVersions : List RosaVersion :=
  [mkVer "4.12.0", mkVer "4.13.1", mkVer "4.14.0"]

/-- C7: with a non-empty constraint list, version filtering retains exactly
the candidates whose raw id satisfies at least one constraint (union across
constraint passes, not intersection), and any unparseable constraint or
candidate version yields an error rather than a list; on the example list
4.12.0/4.13.1/4.14.0 the single constraint `~4.13` yields exactly 4.13.1. -/
theorem c7_version_filter_union_and_hard_errors (vs : List RosaVersion) (cs : List String)
    (hne : cs ≠ []) :
    (∀ out, versionsConstraintFilter vs cs = .ok out →
      ∀ v, v ∈ out ↔ v ∈ vs ∧ ∃ c ∈ cs, ∃ con pv, parseConstraintStr c = some con ∧
        parseSemVerStr v.RawID = some pv ∧ constraintCheck con pv = true) ∧
    ((∃ c ∈ cs, parseConstraintStr c = none) →
      ∃ e, versionsConstraintFilter vs cs = .error e) ∧
    ((∃ v ∈ vs, parseSemVerStr v.RawID = none) →
      ∃ e, versionsConstraintFilter vs cs = .error e) ∧
    versionsConstraintFilter exampleVersions ["~4.13"] = .ok [mkVer "4.13.1"] := by
  cases cs with
  | nil => exact absurd rfl hne
  | cons c0 cs' =>
    refine ⟨?_, ?_, ?_, rfl⟩
    · intro out h v
      exact filterVersionsLoop_ok_mem vs (c0 :: cs') out h v
    · intro hbad
      exact filterVersionsLoop_error_of_bad_constraint vs (c0 :: cs') hbad
    · intro hbad
      exact filterVersionsLoop_error_of_bad_version vs (c0 :: cs') hne hbad

/-- Witness for C7: the `~4.13` example, including the membership
characterization instantiated at 4.13.1. -/
theorem c7_version_filter_union_and_hard_errors_witness :
    versionsConstraintFilter exampleVersions ["~4.13"] = .ok [mkVer "4.13.1"] ∧
    (mkVer "4.13.1" ∈ [mkVer "4.13.1"] ↔ mkVer "4.13.1" ∈ exampleVersions ∧
      ∃ c ∈ ["~4.13"], ∃ con pv, parseConstraintStr c = some con ∧
        parseSemVerStr (mkVer "4.13.1").RawID = some pv ∧ constraintCheck con pv = true) :=
  ⟨rfl,
    (c7_version_filter_union_and_hard_errors exampleVersions ["~4.13"] (by simp)).1
      [mkVer "4.13.1"] rfl (mkVer "4.13.1")⟩

/-!  ## C9: bounded waits -/

/-- If every polled invocation comes back `(false, none)` the loop runs out
of fuel and times out. -/
theorem pollGo_timedOut (check : Nat → Bool × Option String) :
    ∀ (fuel i : Nat), (∀ j, j < fuel → check (i + j) = (false, none)) →
      pollGo check i fuel = .timedOut (i + fuel) := by
  intro fuel
  induction fuel with
  | zero => intro i _; simp [pollGo]
  | succ f ihf =>
    intro i hall
    have h0 : check i = (false, none) := by simpa using hall 0 (Nat.succ_pos f)
    have hrest : ∀ j, j < f → check (i + 1 + j) = (false, none) := by
      intro j hj
      have := hall (j + 1) (by omega)
      simpa [Nat.add_assoc, Nat.add_comm 1 j] using this
    calc pollGo check i (f + 1) = pollGo check (i + 1) f := by rw [pollGo, h0]
    _ = .timedOut (i + 1 + f) := ihf (i + 1) hrest
    _ = .timedOut (i + (f + 1)) := by congr 1; omega

/-- The first invocation that returns an error stops the loop immediately:
exactly `j + 1` invocations are made. -/
theorem pollGo_failed (check : Nat → Bool × Option String) :
    ∀ (fuel j : Nat) (b : Bool) (e : String), j < fuel →
      (∀ k, k < j → check k = (false, none)) → check j = (b, some e) →
      pollGo check 0 fuel = .failed e (j + 1) := by
  suffices hgen : ∀ (fuel i j : Nat) (b : Bool) (e : String), j < fuel →
      (∀ k, k < j → check (i + k) = (false, none)) → check (i + j) = (b, some e) →
      pollGo check i fuel = .failed e (i + j + 1) by
    intro fuel j b e hj hclean herr
    have := hgen fuel 0 j b e hj (by simpa using hclean) (by simpa using herr)
    simpa using this
  intro fuel
  induction fuel with
  | zero => intro i j b e hj; omega
  | succ f ihf =>
    intro i j b e hj hclean herr
    cases j with
    | zero =>
      simp only [Nat.add_zero] at herr
      rw [pollGo, herr]
      cases b <;> rfl
    | succ j' =>
      have h0 : check i = (false, none) := by simpa using hclean 0 (Nat.succ_pos j')
      have hrest : ∀ k, k < j' → check (i + 1 + k) = (false, none) := by
        intro k hk
        have := hclean (k + 1) (by omega)
        simpa [Nat.add_assoc, Nat.add_comm 1 k] using this
      have herr' : check (i + 1 + j') = (b, some e) := by
        have : i + 1 + j' = i + (j' + 1) := by omega
        rw [this]
        exact herr
      calc pollGo check i (f + 1) = pollGo check (i + 1) f := by rw [pollGo, h0]
      _ = .failed e (i + 1 + j' + 1) := ihf (i + 1) j' b e (by omega) hrest herr'
      _ = .failed e (i + (j' + 1) + 1) := by congr 1; omega

/-- The first invocation that returns `true` stops the loop successfully:
exactly `j + 1` invocations are made. -/
theorem pollGo_succeeded (check : Nat → Bool × Option String) :
    ∀ (fuel j : Nat), j < fuel →
      (∀ k, k < j → check k = (false, none)) → check j = (true, none) →
      pollGo check 0 fuel = .succeeded (j + 1) := by
  suffices hgen : ∀ (fuel i j : Nat), j < fuel →
      (∀ k, k < j → check (i + k) = (false, none)) → check (i + j) = (true, none) →
      pollGo check i fuel = .succeeded (i + j + 1) by
    intro fuel j hj hclean hdone
    have := hgen fuel 0 j hj (by simpa using hclean) (by simpa using hdone)
    simpa using this
  intro fuel
  induction fuel with
  | zero => intro i j hj; omega
  | succ f ihf =>
    intro i j hj hclean hdone
    cases j with
    | zero =>
      rw [pollGo]
      simp only [Nat.add_zero] at hdone
      rw [hdone]
    | succ j' =>
      have h0 : check i = (false, none) := by simpa using hclean 0 (Nat.succ_pos j')
      have hrest : ∀ k, k < j' → check (i + 1 + k) = (false, none) := by
        intro k hk
        have := hclean (k + 1) (by omega)
        simpa [Nat.add_assoc, Nat.add_comm 1 k] using this
      have hdone' : check (i + 1 + j') = (true, none) := by
        have : i + 1 + j' = i + (j' + 1) := by omega
        rw [this]
        exact hdone
      calc pollGo check i (f + 1) = pollGo check (i + 1) f := by rw [pollGo, h0]
      _ = .succeeded (i + 1 + j' + 1) := ihf (i + 1) j' (by omega) hrest hdone'
      _ = .succeeded (i + (j' + 1) + 1) := by congr 1; omega

/-- C9 counterexample: the delete wait's timeout error does not name the
allotted bound — on a predicate that never becomes true, the message at a
60-second bound does not contain that bound's rendering (`1m0s`) and is the
very same string produced at a 7200-second bound. -/
theorem c9_counterexample :
    waitForClusterToBeDeletedM (fun _ => false) "mycluster" 60
        = .error "cluster \"mycluster\" failed to finish uninstalling in the alloted time" ∧
    waitForClusterToBeDeletedM (fun _ => false) "mycluster" 60
        = waitForClusterToBeDeletedM (fun _ => false) "mycluster" 7200 ∧
    goDuration 60 = "1m0s" ∧
    strContains "cluster \"mycluster\" failed to finish uninstalling in the alloted time"
        (goDuration 60) = false :=
  ⟨rfl, rfl, rfl, rfl⟩

/-- C9 amended: both orchestrator waits poll their predicate through the
shared poller at the fixed 30-second interval (`timeout / 30` invocations
within the bound).  When the predicate never becomes true within the bound
the wait returns a timeout error instead of polling forever — the install
wait's message names the allotted bound, the delete wait's message names
only the cluster.  A predicate error (possible only in the install wait)
aborts polling immediately, after exactly `j + 1` invocations when it first
appears at invocation `j`, and is propagated wrapped. -/
theorem c9_amended_bounded_waits (states : Nat → Except String String)
    (gone : Nat → Bool) (cid cname : String) (t : Nat) :
    ((∀ i, i < t / 30 → ∃ s, states i = .ok s ∧ s ≠ "ready") →
      waitForClusterToBeInstalledM states cid t
        = .error ("cluster \"" ++ cid ++ "\" failed to enter ready state in the alloted time \""
            ++ goDuration t ++ "\": timed out waiting for the condition")) ∧
    (∀ j, j < t / 30 → states j = .ok "ready" →
      (∀ i, i < j → ∃ s, states i = .ok s ∧ s ≠ "ready") →
      waitForClusterToBeInstalledM states cid t = .ok () ∧
      pollFor (installedCheck states) t 30 = .succeeded (j + 1)) ∧
    (∀ j e, j < t / 30 → states j = .error e →
      (∀ i, i < j → ∃ s, states i = .ok s ∧ s ≠ "ready") →
      waitForClusterToBeInstalledM states cid t
        = .error ("cluster \"" ++ cid ++ "\" failed to enter ready state in the alloted time \""
            ++ goDuration t ++ "\": " ++ e) ∧
      pollFor (installedCheck states) t 30 = .failed e (j + 1)) ∧
    ((∀ i, i < t / 30 → gone i = false) →
      waitForClusterToBeDeletedM gone cname t
        = .error ("cluster \"" ++ cname ++ "\" failed to finish uninstalling in the alloted time")) := by
  have hfalse : ∀ i, (∃ s, states i = .ok s ∧ s ≠ "ready") →
      installedCheck states i = (false, none) := by
    rintro i ⟨s, hs, hne⟩
    simp [installedCheck, hs, hne]
  refine ⟨?_, ?_, ?_, ?_⟩
  · intro hall
    have := pollGo_timedOut (installedCheck states) (t / 30) 0
      (fun j hj => by simpa using hfalse j (hall j hj))
    unfold waitForClusterToBeInstalledM pollFor
    rw [this]
  · intro j hj hready hclean
    have hchk : installedCheck states j = (true, none) := by simp [installedCheck, hready]
    have := pollGo_succeeded (installedCheck states) (t / 30) j hj
      (fun k hk => hfalse k (hclean k hk)) hchk
    constructor
    · unfold waitForClusterToBeInstalledM pollFor
      rw [this]
    · exact this
  · intro j e hj herr hclean
    have hchk : installedCheck states j = (false, some e) := by simp [installedCheck, herr]
    have := pollGo_failed (installedCheck states) (t / 30) j false e hj
      (fun k hk => hfalse k (hclean k hk)) hchk
    constructor
    · unfold waitForClusterToBeInstalledM pollFor
      rw [this]
    · exact this
  · intro hall
    have := pollGo_timedOut (deletedCheck gone) (t / 30) 0
      (fun j hj => by simpa [deletedCheck] using hall j hj)
    unfold waitForClusterToBeDeletedM pollFor
    rw [this]

/-- Witness for C9 amended: concrete runs of all four cases at a 90-second
bound (three invocations). -/
theorem c9_amended_bounded_waits_witness :
    waitForClusterToBeInstalledM (fun _ => .ok "installing") "cid1" 90
      = .error ("cluster \"cid1\" failed to enter ready state in the alloted time \""
          ++ goDuration 90 ++ "\": timed out waiting for the condition") ∧
    (waitForClusterToBeInstalledM (fun i => if i = 0 then .ok "installing" else .ok "ready")
        "cid1" 90 = .ok () ∧
      pollFor (installedCheck (fun i => if i = 0 then .ok "installing" else .ok "ready")) 90 30
        = .succeeded 2) ∧
    (waitForClusterToBeInstalledM (fun i => if i = 0 then .ok "installing" else .error "boom")
        "cid1" 90
      = .error ("cluster \"cid1\" failed to enter ready state in the alloted time \""
          ++ goDuration 90 ++ "\": boom") ∧
      pollFor (installedCheck (fun i => if i = 0 then .ok "installing" else .error "boom")) 90 30
        = .failed "boom" 2) ∧
    waitForClusterToBeDeletedM (fun _ => false) "c1" 90
      = .error "cluster \"c1\" failed to finish uninstalling in the alloted time" := by
  refine ⟨?_, ?_, ?_, ?_⟩
  · exact (c9_amended_bounded_waits (fun _ => .ok "installing") (fun _ => false) "cid1" "c1"
      90).1 (fun i _ => ⟨"installing", rfl, by decide⟩)
  · exact (c9_amended_bounded_waits (fun i => if i = 0 then .ok "installing" else .ok "ready")
      (fun _ => false) "cid1" "c1" 90).2.1 1 (by decide) rfl
      (fun i hi => ⟨"installing", by (interval_cases i; rfl), by decide⟩)
  · exact (c9_amended_bounded_waits (fun i => if i = 0 then .ok "installing" else .error "boom")
      (fun _ => false) "cid1" "c1" 90).2.2.1 1 "boom" (by decide) rfl
      (fun i hi => ⟨"installing", by (interval_cases i; rfl), by decide⟩)
  · exact (c9_amended_bounded_waits (fun _ => .ok "installing") (fun _ => false) "cid1" "c1"
      90).2.2.2 (fun i _ => rfl)

/-!  ## C6 and C4: the create command's arguments and validation -/

/-- Rewrites one error-collection step of the validator into an appended
conditional segment. -/
theorem ite_append_extend {c : Prop} [Decidable c] (l ex : List String) :
    (if c then l ++ ex else l) = l ++ (if c then ex else []) := by
  split <;> simp

/-- Variant of `ite_append_extend` for a two-part shared prefix that has
been re-associated to the right. -/
theorem ite_append_extend2 {c : Prop} [Decidable c] (a b ex : List String) :
    (if c then a ++ (b ++ ex) else a ++ b) = (a ++ b) ++ (if c then ex else []) := by
  split <;> simp

/-- The validator leaves `MultiAZ` untouched. -/
theorem validate_fst_MultiAZ (o : CreateClusterOptions) :
    (validateCreateClusterOptions o).1.MultiAZ = o.MultiAZ := by
  unfold validateCreateClusterOptions
  simp only [apply_ite CreateClusterOptions.MultiAZ, ite_self]

/-- The validator leaves `MinReplicas` untouched. -/
theorem validate_fst_MinReplicas (o : CreateClusterOptions) :
    (validateCreateClusterOptions o).1.MinReplicas = o.MinReplicas := by
  unfold validateCreateClusterOptions
  simp only [apply_ite CreateClusterOptions.MinReplicas, ite_self]

/-- The validator leaves `MaxReplicas` untouched. -/
theorem validate_fst_MaxReplicas (o : CreateClusterOptions) :
    (validateCreateClusterOptions o).1.MaxReplicas = o.MaxReplicas := by
  unfold validateCreateClusterOptions
  simp only [apply_ite CreateClusterOptions.MaxReplicas, ite_self]

/-- The validator defaults a zero `Replicas` to 2 and otherwise keeps it. -/
theorem validate_fst_Replicas (o : CreateClusterOptions) :
    (validateCreateClusterOptions o).1.Replicas
      = if o.Replicas = 0 then 2 else o.Replicas := by
  unfold validateCreateClusterOptions
  simp only [apply_ite CreateClusterOptions.Replicas, ite_self]

/-- `billedOptions` leaves the replica fields untouched. -/
theorem billedOptions_replica_fields (o : CreateClusterOptions) (env : CreateEnv) :
    (billedOptions o env).MultiAZ = o.MultiAZ ∧
    (billedOptions o env).MinReplicas = o.MinReplicas ∧
    (billedOptions o env).MaxReplicas = o.MaxReplicas ∧
    (billedOptions o env).Replicas = o.Replicas := by
  unfold billedOptions
  refine ⟨?_, ?_, ?_, ?_⟩ <;> split <;> rfl

/-- A benign environment: every external call succeeds. -/
def baseCreateEnv : CreateEnv where
  tempDir := "/tmp"
  region := "us-east-1"
  fedRamp := false
  awsAccountID := "123456789012"
  ocmIsProd := false
  expirationTimeStr := "2026-01-01T00:00:00Z"
  nightlyWait := .ok ()
  regionCheck := .ok ()
  rolesWorld := rolesWorld7
  createOIDC := .ok "oidc-new"
  createVPC := .ok ("subnet-priv", "subnet-pub")
  runCreateCmd := .ok ()
  findClusterAfterCreate := .ok "cid-123"
  installWait := .ok ()
  kubeconfig := .ok ()
  clientBuild := .ok ()
  healthCheck := .ok ()
  comp := ⟨.ok (), .ok (), .ok ()⟩

/-- C6: in `createCluster`, the create command's argument list is the
before/flat/after concatenation built from the validated, billing-defaulted
options; for a multi-AZ request with no replica bounds and a requested
replica count below 3 the flat argument is exactly `--replicas 3`; and
whenever a replica bound is set the flat `--replicas` segment is suppressed
entirely (the bounds take precedence). -/
theorem c6_multiaz_replicas_and_bound_suppression (o : CreateClusterOptions)
    (env : CreateEnv) (hvalid : (validateCreateClusterOptions o).2 = []) :
    (∃ rest, (createClusterStep o env).2
        = RAction.createClusterCmd
            (buildCreateArgs (billedOptions (validateCreateClusterOptions o).1 env) env)
          :: rest) ∧
    (o.MultiAZ = true → o.MinReplicas = 0 → o.MaxReplicas = 0 → o.Replicas < 3 →
      buildCreateArgs (billedOptions (validateCreateClusterOptions o).1 env) env
        = createArgsBeforeReplicas (billedOptions (validateCreateClusterOptions o).1 env) env
          ++ ["--replicas", "3"]
          ++ createArgsAfterReplicas (billedOptions (validateCreateClusterOptions o).1 env) env) ∧
    ((o.MinReplicas ≠ 0 ∨ o.MaxReplicas ≠ 0) →
      buildCreateArgs (billedOptions (validateCreateClusterOptions o).1 env) env
        = createArgsBeforeReplicas (billedOptions (validateCreateClusterOptions o).1 env) env
          ++ createArgsAfterReplicas (billedOptions (validateCreateClusterOptions o).1 env) env) := by
  have hBmz := (billedOptions_replica_fields (validateCreateClusterOptions o).1 env).1.trans
    (validate_fst_MultiAZ o)
  have hBmin := (billedOptions_replica_fields (validateCreateClusterOptions o).1 env).2.1.trans
    (validate_fst_MinReplicas o)
  have hBmax := (billedOptions_replica_fields (validateCreateClusterOptions o).1 env).2.2.1.trans
    (validate_fst_MaxReplicas o)
  have hBrep := (billedOptions_replica_fields (validateCreateClusterOptions o).1 env).2.2.2.trans
    (validate_fst_Replicas o)
  refine ⟨?_, ?_, ?_⟩
  · rcases hv : validateCreateClusterOptions o with ⟨o1, errs⟩
    rw [hv] at hvalid
    have herrs : errs = [] := hvalid
    subst herrs
    unfold createClusterStep
    rw [hv]
    cases env.runCreateCmd with
    | error e => exact ⟨[], rfl⟩
    | ok u =>
      cases env.findClusterAfterCreate with
      | error e => exact ⟨[.findClusterCall (billedOptions o1 env).ClusterName], rfl⟩
      | ok cid => exact ⟨[.findClusterCall (billedOptions o1 env).ClusterName], rfl⟩
  · intro hmz hmin hmax hrep
    have hlt : (billedOptions (validateCreateClusterOptions o).1 env).Replicas < 3 := by
      rw [hBrep]
      split
      · norm_num
      · exact hrep
    have hflat : flatReplicasArgs (billedOptions (validateCreateClusterOptions o).1 env)
        = ["--replicas", "3"] := by
      unfold flatReplicasArgs
      rw [if_pos ⟨by rw [hBmin]; exact hmin, by rw [hBmax]; exact hmax⟩]
      unfold effectiveReplicas
      rw [if_pos ⟨by rw [hBmz]; exact hmz, hlt⟩]
      decide
    unfold buildCreateArgs
    rw [hflat]
  · intro hbound
    have hflat : flatReplicasArgs (billedOptions (validateCreateClusterOptions o).1 env)
        = [] := by
      unfold flatReplicasArgs
      rw [if_neg]
      rintro ⟨h1, h2⟩
      rcases hbound with hb | hb
      · exact hb (by rw [← hBmin]; exact h1)
      · exact hb (by rw [← hBmax]; exact h2)
    unfold buildCreateArgs
    rw [hflat]
    simp

/-- Multi-AZ options requesting 1 replica with no bounds. -/
def c6OptsA : CreateClusterOptions :=
  { baseCreateOpts with MultiAZ := true, Replicas := 1, ClusterName := "c6", Version := "4.14.3" }

/-- The same options with explicit replica bounds 2..6. -/
def c6OptsB : CreateClusterOptions :=
  { c6OptsA with MinReplicas := 2, MaxReplicas := 6 }

/-- Witness for C6: the concrete multi-AZ raise-to-3 and the concrete
bound-driven suppression (the built argument list provably contains no
`--replicas` token at all in the bounded case). -/
theorem c6_multiaz_replicas_and_bound_suppression_witness :
    (buildCreateArgs (billedOptions (validateCreateClusterOptions c6OptsA).1 baseCreateEnv)
        baseCreateEnv
      = createArgsBeforeReplicas (billedOptions (validateCreateClusterOptions c6OptsA).1
          baseCreateEnv) baseCreateEnv
        ++ ["--replicas", "3"]
        ++ createArgsAfterReplicas (billedOptions (validateCreateClusterOptions c6OptsA).1
          baseCreateEnv) baseCreateEnv) ∧
    (buildCreateArgs (billedOptions (validateCreateClusterOptions c6OptsB).1 baseCreateEnv)
        baseCreateEnv
      = createArgsBeforeReplicas (billedOptions (validateCreateClusterOptions c6OptsB).1
          baseCreateEnv) baseCreateEnv
        ++ createArgsAfterReplicas (billedOptions (validateCreateClusterOptions c6OptsB).1
          baseCreateEnv) baseCreateEnv) ∧
    "--replicas" ∉ buildCreateArgs (billedOptions (validateCreateClusterOptions c6OptsB).1
        baseCreateEnv) baseCreateEnv ∧
    "--min-replicas" ∈ buildCreateArgs (billedOptions (validateCreateClusterOptions c6OptsB).1
        baseCreateEnv) baseCreateEnv :=
  ⟨(c6_multiaz_replicas_and_bound_suppression c6OptsA baseCreateEnv (by decide)).2.1
      rfl rfl rfl (by decide),
   (c6_multiaz_replicas_and_bound_suppression c6OptsB baseCreateEnv (by decide)).2.2
      (Or.inl (by decide)),
   by decide, by decide⟩

/-- True exactly on the `rosa create cluster` command action. -/
def isCreateCmdAction : RAction → Bool
  | .createClusterCmd _ => true
  | _ => false

/-- Options whose validation fails (no version) after a network stack was
provisioned (private-link topology, no caller-supplied subnets). -/
def c4Opts : CreateClusterOptions :=
  { baseCreateOpts with PrivateLink := true, ClusterName := "c4x" }

/-- C4 counterexample: with a private-link request lacking a version, the
saga provisions the network stack first (a mutating call), then
`validateCreateClusterOptions` fails inside `createCluster` — the returned
error is the combined validation error, no create command was ever issued,
and the validation failure DOES trigger compensation: the freshly created
VPC is torn down. -/
theorem c4_counterexample :
    (CreateCluster c4Opts baseCreateEnv).err
      = some ⟨"create", "cluster options validation failed: one or more create cluster options are missing"⟩ ∧
    RAction.createVPCCall "c4x" "us-east-1" "/tmp" false true
      ∈ (CreateCluster c4Opts baseCreateEnv).trace ∧
    RAction.deleteVPCCall "c4x" "us-east-1" "/tmp" ∈ (CreateCluster c4Opts baseCreateEnv).trace ∧
    (CreateCluster c4Opts baseCreateEnv).trace.all (fun a => !isCreateCmdAction a) = true := by
  refine ⟨?_, ?_, ?_, ?_⟩ <;> decide

/-- C4 amended: `validateCreateClusterOptions` runs inside `createCluster`
before the create command is issued (but after dependency provisioning);
it collects every violation — the violation list is exactly the
concatenation of all applicable violations, not just the first — and a
non-empty list makes `createCluster` return the single combined error with
no command issued; the saga then compensates resources created earlier in
the attempt, as for any cluster-create failure (see the counterexample for
a concrete compensation run). -/
theorem c4_amended_aggregated_validation (o : CreateClusterOptions) (env : CreateEnv) :
    ((validateCreateClusterOptions o).2 =
      (if o.ClusterName = "" then ["cluster name is required"] else []) ++
      (if o.Version = "" then ["cluster version is required"] else []) ++
      (if o.HostedCP then
        (if o.OidcConfigID = "" then
          ["oidc config id is required for hosted control plane clusters"] else []) ++
        (if o.SubnetIDs = "" then
          ["subnet ids is required for hosted control plane clusters"] else [])
      else []) ++
      (if o.HostedCP || o.STS then
        (if o.accountRoles.controlPlaneRoleARN = "" then
          ["iam role arn for control plane is required"] else []) ++
        (if o.accountRoles.installerRoleARN = "" then
          ["iam role arn for installer is required"] else []) ++
        (if o.accountRoles.supportRoleARN = "" then
          ["iam role arn for support role is required"] else []) ++
        (if o.accountRoles.workerRoleARN = "" then
          ["iam role for worker role is required"] else [])
      else [])) ∧
    ((validateCreateClusterOptions o).2 ≠ [] →
      (createClusterStep o env).1
        = .error "cluster options validation failed: one or more create cluster options are missing" ∧
      (createClusterStep o env).2 = []) := by
  constructor
  · unfold validateCreateClusterOptions
    simp only [apply_ite CreateClusterOptions.Version, apply_ite CreateClusterOptions.HostedCP,
      apply_ite CreateClusterOptions.OidcConfigID, apply_ite CreateClusterOptions.SubnetIDs,
      apply_ite CreateClusterOptions.STS, apply_ite CreateClusterOptions.accountRoles,
      ite_self]
    simp only [ite_append_extend]
    simp only [List.append_assoc]
    simp only [ite_append_extend]
    simp only [List.append_assoc, List.nil_append]
    simp only [ite_append_extend2]
    simp only [List.append_assoc]
  · intro hne
    rcases hv : validateCreateClusterOptions o with ⟨o1, errs⟩
    cases errs with
    | nil =>
      rw [hv] at hne
      exact absurd rfl hne
    | cons a as =>
      unfold createClusterStep
      rw [hv]
      exact ⟨rfl, rfl⟩

/-- Witness for C4 amended: with both name and version missing, validation
collects both violations and `createCluster` fails pre-command with the
combined error and an empty trace. -/
theorem c4_amended_aggregated_validation_witness :
    (validateCreateClusterOptions baseCreateOpts).2
      = ["cluster name is required", "cluster version is required"] ∧
    (createClusterStep baseCreateOpts baseCreateEnv).1
      = .error "cluster options validation failed: one or more create cluster options are missing" ∧
    (createClusterStep baseCreateOpts baseCreateEnv).2 = [] :=
  ⟨by decide,
    (c4_amended_aggregated_validation baseCreateOpts baseCreateEnv).2 (by decide)⟩

/-!  ## C8: account-role deletion is skipped under the default prefix -/

/-- Delete-option defaulting leaves the topology flags, cluster name and
derived OIDC id unchanged, and forces STS only for hosted clusters. -/
theorem setDefaultDelete_projections (o : DeleteClusterOptions) (td : String) :
    (setDefaultDeleteClusterOptions o td).HostedCP = o.HostedCP ∧
    (setDefaultDeleteClusterOptions o td).PrivateLink = o.PrivateLink ∧
    (setDefaultDeleteClusterOptions o td).ClusterName = o.ClusterName ∧
    (setDefaultDeleteClusterOptions o td).oidcConfigID = o.oidcConfigID ∧
    (setDefaultDeleteClusterOptions o td).STS = (if o.HostedCP then true else o.STS) := by
  unfold setDefaultDeleteClusterOptions
  refine ⟨?_, ?_, ?_, ?_, ?_⟩
  · simp only [apply_ite DeleteClusterOptions.HostedCP, ite_self]
  · simp only [apply_ite DeleteClusterOptions.PrivateLink, ite_self]
  · simp only [apply_ite DeleteClusterOptions.ClusterName, ite_self]
  · simp only [apply_ite DeleteClusterOptions.oidcConfigID, ite_self]
  · simp only [apply_ite DeleteClusterOptions.STS, ite_self]

/-- A `deleteRolesCmd` emitted by the roles phase implies the live role ARN
does not carry the default-prefix marker. -/
theorem deleteRolesPhase_mem_roles (opts : DeleteClusterOptions) (env : DeleteEnv)
    (cl : ClusterRec) (tr : List RAction) (p : String)
    (hp : RAction.deleteRolesCmd p ∈ (deleteRolesPhase opts env cl tr).2) :
    RAction.deleteRolesCmd p ∈ tr ∨
      strContains cl.stsRoleARN defaultAccountRolesPrefix = false := by
  unfold deleteRolesPhase at hp
  split at hp
  · split at hp
    · rename_i hmark
      right
      simpa using hmark
    · exact Or.inl hp
  · exact Or.inl hp

/-- Same property through the VPC phase. -/
theorem deleteVPCPhase_mem_roles (opts : DeleteClusterOptions) (env : DeleteEnv)
    (cl : ClusterRec) (tr : List RAction) (p : String)
    (hp : RAction.deleteRolesCmd p ∈ (deleteVPCPhase opts env cl tr).2) :
    RAction.deleteRolesCmd p ∈ tr ∨
      strContains cl.stsRoleARN defaultAccountRolesPrefix = false := by
  unfold deleteVPCPhase at hp
  split at hp
  · split at hp
    · left
      simpa using hp
    · rcases deleteRolesPhase_mem_roles opts env cl _ p hp with h | h
      · left
        simpa using h
      · exact Or.inr h
  · exact deleteRolesPhase_mem_roles opts env cl tr p hp

/-- Same property through the hosted/private-link cleanup block. -/
theorem deleteHostedPhase_mem_roles (opts : DeleteClusterOptions) (env : DeleteEnv)
    (cl : ClusterRec) (tr : List RAction) (p : String)
    (hp : RAction.deleteRolesCmd p ∈ (deleteHostedPhase opts env cl tr).2) :
    RAction.deleteRolesCmd p ∈ tr ∨
      strContains cl.stsRoleARN defaultAccountRolesPrefix = false := by
  unfold deleteHostedPhase at hp
  split at hp
  · split at hp
    · split at hp
      · left
        simpa using hp
      · rcases deleteVPCPhase_mem_roles opts env cl _ p hp with h | h
        · left
          simpa using h
        · exact Or.inr h
    · exact deleteVPCPhase_mem_roles opts env cl tr p hp
  · exact deleteRolesPhase_mem_roles opts env cl tr p hp

/-- Same property through the operator-roles/OIDC-provider block. -/
theorem deleteOpRolesPhase_mem_roles (opts : DeleteClusterOptions) (env : DeleteEnv)
    (cl : ClusterRec) (tr : List RAction) (p : String)
    (hp : RAction.deleteRolesCmd p ∈ (deleteOpRolesPhase opts env cl tr).2) :
    RAction.deleteRolesCmd p ∈ tr ∨
      strContains cl.stsRoleARN defaultAccountRolesPrefix = false := by
  unfold deleteOpRolesPhase at hp
  split at hp
  · split at hp
    · left
      simpa using hp
    · split at hp
      · left
        simpa using hp
      · rcases deleteHostedPhase_mem_roles opts env cl _ p hp with h | h
        · left
          simpa using h
        · exact Or.inr h
  · exact deleteHostedPhase_mem_roles opts env cl tr p hp

/-- A `deleteRolesCmd` anywhere in a `DeleteClusterGo` trace implies the
live role ARN lacks the default-prefix marker. -/
theorem deleteClusterFound_mem_roles (opts1 : DeleteClusterOptions) (env : DeleteEnv)
    (cl : ClusterRec) (p : String)
    (hp : RAction.deleteRolesCmd p ∈ (deleteClusterFound opts1 env cl).2) :
    strContains cl.stsRoleARN defaultAccountRolesPrefix = false := by
  unfold deleteClusterFound at hp
  repeat' split at hp
  all_goals
    first
    | (rcases deleteOpRolesPhase_mem_roles _ env cl _ p hp with h | h
       · simp at h
       · exact h)
    | simp at hp

/-- A `deleteRolesCmd` anywhere in a `DeleteClusterGo` trace implies the
cluster was found and its live role ARN lacks the default-prefix marker. -/
theorem deleteClusterGo_mem_roles (opts : DeleteClusterOptions) (env : DeleteEnv) (p : String)
    (hp : RAction.deleteRolesCmd p ∈ (DeleteClusterGo opts env).2) :
    ∃ cl, env.findCluster = .ok cl ∧
      strContains cl.stsRoleARN defaultAccountRolesPrefix = false := by
  unfold DeleteClusterGo at hp
  cases hfind : env.findCluster with
  | error e => rw [hfind] at hp; simp at hp
  | ok cl =>
    rw [hfind] at hp
    exact ⟨cl, rfl, deleteClusterFound_mem_roles opts env cl p hp⟩

/-- The successful non-hosted STS run with a default-prefix role ARN:
operator roles and the OIDC provider are deleted, account roles are not. -/
theorem deleteClusterGo_scenario (opts : DeleteClusterOptions) (env : DeleteEnv)
    (cl : ClusterRec) (hfind : env.findCluster = .ok cl)
    (h1 : opts.HostedCP = false) (h2 : opts.STS = true) (h3 : opts.PrivateLink = false)
    (hmark : strContains cl.stsRoleARN defaultAccountRolesPrefix = true)
    (hid : cl.id ≠ "") (hdc : env.deleteCmd = .ok ()) (hdw : env.deleteWait = .ok ())
    (hdor : env.deleteOperatorRoles = .ok ()) (hdop : env.deleteOIDCProvider = .ok ()) :
    DeleteClusterGo opts env =
      (none,
        [.findClusterCall opts.ClusterName, .deleteClusterCmd cl.id, .deleteWaitCall cl.name,
         .deleteOperatorRolesCall cl.id cl.operatorRolePfx opts.oidcConfigID,
         .deleteOIDCProviderCall cl.id opts.oidcConfigID]) := by
  unfold DeleteClusterGo
  rw [hfind]
  simp [deleteClusterFound, deleteOpRolesPhase, deleteHostedPhase, deleteRolesPhase,
    h1, h2, h3, hmark, hid, hdc, hdw, hdor, hdop]

/-- C8: `DeleteCluster` issues an account-role deletion only when the live
installer role ARN does not contain the default-prefix marker
(`ManagedOpenShift`); and for a non-hosted STS cluster whose ARN carries
the marker, a successful run performs operator-role deletion and OIDC
provider teardown but no account-role deletion call. -/
theorem c8_delete_skips_default_prefix_account_roles (opts0 : DeleteClusterOptions)
    (env : DeleteEnv) :
    (∀ p, RAction.deleteRolesCmd p ∈ (DeleteCluster opts0 env).2 →
      ∃ cl, env.findCluster = .ok cl ∧
        strContains cl.stsRoleARN defaultAccountRolesPrefix = false) ∧
    (∀ cl, env.findCluster = .ok cl →
      opts0.HostedCP = false → opts0.STS = true → opts0.PrivateLink = false →
      strContains cl.stsRoleARN defaultAccountRolesPrefix = true →
      cl.id ≠ "" → env.deleteCmd = .ok () → env.deleteWait = .ok () →
      env.deleteOperatorRoles = .ok () → env.deleteOIDCProvider = .ok () →
      (DeleteCluster opts0 env).1 = none ∧
      RAction.deleteOperatorRolesCall cl.id cl.operatorRolePfx opts0.oidcConfigID
        ∈ (DeleteCluster opts0 env).2 ∧
      RAction.deleteOIDCProviderCall cl.id opts0.oidcConfigID ∈ (DeleteCluster opts0 env).2 ∧
      ∀ p, RAction.deleteRolesCmd p ∉ (DeleteCluster opts0 env).2) := by
  obtain ⟨hH, hP, hN, hO, hS⟩ := setDefaultDelete_projections opts0 env.tempDir
  constructor
  · intro p hp
    exact deleteClusterGo_mem_roles (setDefaultDeleteClusterOptions opts0 env.tempDir) env p hp
  · intro cl hfind h1 h2 h3 hmark hid hdc hdw hdor hdop
    have hrun := deleteClusterGo_scenario (setDefaultDeleteClusterOptions opts0 env.tempDir)
      env cl hfind (by rw [hH]; exact h1) (by rw [hS, h1]; simp [h2])
      (by rw [hP]; exact h3) hmark hid hdc hdw hdor hdop
    have hDC : DeleteCluster opts0 env
        = DeleteClusterGo (setDefaultDeleteClusterOptions opts0 env.tempDir) env := rfl
    refine ⟨?_, ?_, ?_, ?_⟩
    · rw [hDC, hrun]
    · rw [hDC, hrun]
      simp [hO]
    · rw [hDC, hrun]
      simp [hO]
    · intro p hp
      rw [hDC, hrun] at hp
      simp at hp

/-- Witness for C8: concrete non-hosted STS deletion under the default
prefix marker. -/
def exCluster : ClusterRec :=
  ⟨"cid-del", "delcluster", "arn:aws:iam::123:role/ManagedOpenShift-Installer-Role",
   "delcluster-x4z9", "oidc-abc"⟩

def baseDeleteEnv : DeleteEnv where
  tempDir := "/tmp"
  region := "us-east-1"
  findCluster := .ok exCluster
  deleteCmd := .ok ()
  deleteWait := .ok ()
  deleteOperatorRoles := .ok ()
  deleteOIDCProvider := .ok ()
  deleteOIDCConfigRes := .ok ()
  deleteVPCRes := .ok ()
  deleteRolesRes := .ok ()

def c8Opts : DeleteClusterOptions :=
  { baseDeleteOpts with STS := true, ClusterName := "delcluster" }

theorem c8_delete_skips_default_prefix_account_roles_witness :
    (DeleteCluster c8Opts baseDeleteEnv).1 = none ∧
    RAction.deleteOperatorRolesCall exCluster.id exCluster.operatorRolePfx c8Opts.oidcConfigID
      ∈ (DeleteCluster c8Opts baseDeleteEnv).2 ∧
    RAction.deleteOIDCProviderCall exCluster.id c8Opts.oidcConfigID
      ∈ (DeleteCluster c8Opts baseDeleteEnv).2 ∧
    ∀ p, RAction.deleteRolesCmd p ∉ (DeleteCluster c8Opts baseDeleteEnv).2 :=
  (c8_delete_skips_default_prefix_account_roles c8Opts baseDeleteEnv).2 exCluster
    rfl rfl rfl rfl (by decide) (by decide) rfl rfl rfl rfl

/-!  ## C1 and C2: compensation machinery -/

/-- The phases whose failure invokes `cleanup` in `CreateCluster`
(part_002 lines 218, 236, 247). -/
def compPhases : Option SagaPhase → Bool
  | some .oidc => true
  | some .vpc => true
  | some .createCall => true
  | _ => false

/-- The invariants every saga stage preserves: compensation actions occur
exactly as the final segment of a failing compensated phase's trace, and
the returned error is always the wrap of the original triggering error. -/
def SagaProps (env : CreateEnv) (o : SagaOut) : Prop :=
  (compPhases o.failedPhase = true →
    ∃ pre, o.trace = pre ++ cleanup env.comp o.tracked ∧
      ∀ a ∈ pre, isCompAction a = false) ∧
  (compPhases o.failedPhase = false → ∀ a ∈ o.trace, isCompAction a = false) ∧
  o.err = Option.map (fun e => ClusterError.mk "create" e) o.origErr

/-- `cleanup` performs the same calls whatever each compensating action's
outcome: a failure is logged, never escalated, never blocking. -/
theorem cleanup_eq_cleanupActions (comp : CompEnv) (r : CreatedResources) :
    cleanup comp r = cleanupActions r := by
  unfold cleanup cleanupActions compGuard
  cases comp.deleteVPCRes <;> cases comp.deleteOIDCRes <;> cases comp.deleteRolesRes <;>
    (repeat' split) <;> rfl

/-- Concatenating two compensation-free traces stays compensation-free. -/
theorem clean_append {t1 t2 : List RAction}
    (h1 : ∀ a ∈ t1, isCompAction a = false) (h2 : ∀ a ∈ t2, isCompAction a = false) :
    ∀ a ∈ t1 ++ t2, isCompAction a = false := by
  intro a ha
  rcases List.mem_append.mp ha with h | h
  · exact h1 a h
  · exact h2 a h

/-- A boolean all-scan implies the pointwise compensation-free property. -/
theorem clean_of_all {tr : List RAction} (h : (tr.all fun a => !isCompAction a) = true) :
    ∀ a ∈ tr, isCompAction a = false := by
  intro a ha
  have := List.all_eq_true.mp h a ha
  simpa using this

/-- The account-role resolver issues no compensating calls. -/
theorem createAccountRoles_trace_clean (fedRamp : Bool) (w : RolesWorld)
    (pfx v ch : String) :
    ∀ a ∈ (CreateAccountRoles fedRamp w pfx v ch).2, isCompAction a = false := by
  apply clean_of_all
  unfold CreateAccountRoles
  (repeat' split) <;> rfl

/-- The create-cluster command step issues no compensating calls. -/
theorem createClusterStep_trace_clean (o : CreateClusterOptions) (env : CreateEnv) :
    ∀ a ∈ (createClusterStep o env).2, isCompAction a = false := by
  apply clean_of_all
  unfold createClusterStep
  (repeat' split) <;> rfl

/-- A singleton trace of a non-compensating action is compensation-free. -/
theorem clean_single (x : RAction) (hx : isCompAction x = false) :
    ∀ a ∈ [x], isCompAction a = false := by
  intro a ha
  simp at ha
  subst ha
  exact hx

/-- Stage invariant for the install/health tail. -/
theorem installStage_props (opts : CreateClusterOptions) (env : CreateEnv) (cid : String)
    (tr : List RAction) (res : CreatedResources)
    (htr : ∀ a ∈ tr, isCompAction a = false) :
    SagaProps env (sagaInstallStage opts env cid tr res) := by
  have hiw : ∀ a ∈ tr ++ [RAction.installWaitCall cid], isCompAction a = false :=
    clean_append htr (clean_single _ rfl)
  have hkc : ∀ a ∈ (tr ++ [RAction.installWaitCall cid]) ++ [RAction.kubeconfigCall cid],
      isCompAction a = false :=
    clean_append hiw (clean_single _ rfl)
  have hcb : ∀ a ∈ ((tr ++ [RAction.installWaitCall cid]) ++ [RAction.kubeconfigCall cid])
      ++ [RAction.clientBuildCall], isCompAction a = false :=
    clean_append hkc (clean_single _ rfl)
  have hhc : ∀ a ∈ (((tr ++ [RAction.installWaitCall cid]) ++ [RAction.kubeconfigCall cid])
      ++ [RAction.clientBuildCall]) ++ [RAction.healthCheckCall opts.ClusterName],
      isCompAction a = false :=
    clean_append hcb (clean_single _ rfl)
  unfold sagaInstallStage
  repeat' split
  all_goals refine ⟨?_, ?_, ?_⟩
  all_goals
    first
    | rfl
    | (intro h
       first
       | (simp [sagaFail, sagaOk, compPhases] at h
          done)
       | exact hiw
       | exact hkc
       | exact hcb
       | exact hhc
       | exact htr)

/-- A failing compensated phase satisfies the saga invariant when its
trace is a compensation-free prefix followed by the cleanup segment. -/
theorem sagaProps_fail_comp (env : CreateEnv) (cid e : String) (pre : List RAction)
    (res : CreatedResources) (p : SagaPhase) (hp : compPhases (some p) = true)
    (hpre : ∀ a ∈ pre, isCompAction a = false) :
    SagaProps env (sagaFail cid e (pre ++ cleanup env.comp res) res p) := by
  refine ⟨fun _ => ⟨pre, rfl, hpre⟩, ?_, rfl⟩
  intro hc
  have hc' : compPhases (some p) = false := hc
  rw [hp] at hc'
  simp at hc'

/-- A failing non-compensated phase satisfies the saga invariant when its
trace is compensation-free. -/
theorem sagaProps_fail_clean (env : CreateEnv) (cid e : String) (tr : List RAction)
    (res : CreatedResources) (p : SagaPhase) (hp : compPhases (some p) = false)
    (htr : ∀ a ∈ tr, isCompAction a = false) :
    SagaProps env (sagaFail cid e tr res p) := by
  refine ⟨?_, fun _ => htr, rfl⟩
  intro hc
  have hc' : compPhases (some p) = true := hc
  rw [hp] at hc'
  simp at hc'

/-- Stage invariant for the create call. -/
theorem createStage_props (opts : CreateClusterOptions) (env : CreateEnv)
    (tr : List RAction) (res : CreatedResources)
    (htr : ∀ a ∈ tr, isCompAction a = false) :
    SagaProps env (sagaCreateStage opts env tr res) := by
  have hclean := createClusterStep_trace_clean opts env
  rcases h : createClusterStep opts env with ⟨r, tc⟩
  rw [h] at hclean
  unfold sagaCreateStage
  rw [h]
  cases r with
  | error e =>
    exact sagaProps_fail_comp env "" e (tr ++ tc) res .createCall rfl (clean_append htr hclean)
  | ok cid => exact installStage_props opts env cid (tr ++ tc) res (clean_append htr hclean)

/-- Stage invariant for the network-stack phase. -/
theorem vpcStage_props (opts : CreateClusterOptions) (env : CreateEnv)
    (tr : List RAction) (res : CreatedResources)
    (htr : ∀ a ∈ tr, isCompAction a = false) :
    SagaProps env (sagaVPCStage opts env tr res) := by
  unfold sagaVPCStage
  split
  · split
    · cases henv : env.createVPC with
      | error e =>
        exact sagaProps_fail_comp env "" e
          (tr ++ [.createVPCCall opts.ClusterName env.region opts.WorkingDir
            opts.HostedCP opts.PrivateLink])
          res .vpc rfl
          (clean_append htr (clean_single (.createVPCCall opts.ClusterName env.region
            opts.WorkingDir opts.HostedCP opts.PrivateLink) rfl))
      | ok vp =>
        obtain ⟨privS, pubS⟩ := vp
        exact createStage_props _ env _ _
          (clean_append htr (clean_single (.createVPCCall opts.ClusterName env.region
            opts.WorkingDir opts.HostedCP opts.PrivateLink) rfl))
    · exact createStage_props opts env tr res htr
  · exact createStage_props opts env tr res htr

/-- `CreateAccountRoles` result traces are compensation-free, stated on
the components. -/
theorem createAccountRoles_trace_clean2 (fedRamp : Bool) (w : RolesWorld)
    (pfx v ch : String) (r : Except String (Option AccountRoles × RolesWorld))
    (ta : List RAction) (h : CreateAccountRoles fedRamp w pfx v ch = (r, ta)) :
    ∀ a ∈ ta, isCompAction a = false := by
  have h0 := createAccountRoles_trace_clean fedRamp w pfx v ch
  rw [h] at h0
  exact h0

/-- Stage invariant for the account-roles/OIDC phase. -/
theorem rolesStage_props (opts : CreateClusterOptions) (env : CreateEnv)
    (tr : List RAction) (res : CreatedResources)
    (htr : ∀ a ∈ tr, isCompAction a = false) :
    SagaProps env (sagaRolesStage opts env tr res) := by
  unfold sagaRolesStage
  split
  · split
    · exact sagaProps_fail_clean env "" _ tr res .versionParse rfl htr
    · rename_i v hv
      dsimp only
      have hclean := createAccountRoles_trace_clean env.fedRamp env.rolesWorld
        (rolesPfxFor opts (toString v.major ++ "." ++ toString v.minor))
        (toString v.major ++ "." ++ toString v.minor) opts.ChannelGroup
      rcases hcar : CreateAccountRoles env.fedRamp env.rolesWorld
        (rolesPfxFor opts (toString v.major ++ "." ++ toString v.minor))
        (toString v.major ++ "." ++ toString v.minor) opts.ChannelGroup with ⟨r, ta⟩
      rw [hcar] at hclean
      cases r with
      | error e =>
        exact sagaProps_fail_clean env "" e (tr ++ ta) res .accountRoles rfl
          (clean_append htr hclean)
      | ok pr =>
        obtain ⟨ro, w2⟩ := pr
        cases ro with
        | none =>
          exact sagaProps_fail_clean env "" _ (tr ++ ta) res .panicDeref rfl
            (clean_append htr hclean)
        | some roles =>
          dsimp only
          split
          · cases hoidc : env.createOIDC with
            | error e =>
              exact sagaProps_fail_comp env "" e
                (tr ++ ta ++ [.createOIDCCall opts.ClusterName roles.installerRoleARN]) _
                .oidc rfl
                (clean_append (clean_append htr hclean)
                  (clean_single (.createOIDCCall opts.ClusterName roles.installerRoleARN) rfl))
            | ok oid =>
              exact vpcStage_props _ env _ _
                (clean_append (clean_append htr hclean)
                  (clean_single (.createOIDCCall opts.ClusterName roles.installerRoleARN) rfl))
          · exact vpcStage_props _ env _ _ (clean_append htr hclean)
  · exact vpcStage_props opts env tr res htr

/-- The whole-saga invariant. -/
theorem createCluster_props (opts : CreateClusterOptions) (env : CreateEnv) :
    SagaProps env (CreateCluster opts env) := by
  have hnc : ∀ a ∈ (if (setDefaultCreateClusterOptions opts env.tempDir).ChannelGroup
      = "nightly" then [RAction.nightlyWaitCall] else []), isCompAction a = false := by
    split
    · exact clean_single _ rfl
    · intro a ha
      cases ha
  unfold CreateCluster
  dsimp only
  split
  · exact sagaProps_fail_clean env "" _ _ _ .nightly rfl hnc
  · split
    · exact sagaProps_fail_clean env "" _ _ _ .region rfl
        (clean_append hnc (clean_single (.regionCheckCall env.region) rfl))
    · exact rolesStage_props _ env _ _
        (clean_append hnc (clean_single (.regionCheckCall env.region) rfl))

/-- A compensation-free trace filters to nothing under `isCompAction`. -/
theorem clean_filter {tr : List RAction} (h : ∀ a ∈ tr, isCompAction a = false) :
    tr.filter isCompAction = [] := by
  induction tr with
  | nil => rfl
  | cons x xs ih =>
    have hx : isCompAction x = false := h x (by simp)
    have hxs : xs.filter isCompAction = [] := ih (fun a ha => h a (by simp [ha]))
    simp [List.filter_cons, hx, hxs]

/-- The install/health tail never changes the tracker. -/
theorem installStage_tracked (opts : CreateClusterOptions) (env : CreateEnv)
    (cid : String) (tr : List RAction) (res : CreatedResources) :
    (sagaInstallStage opts env cid tr res).tracked = res := by
  unfold sagaInstallStage
  (repeat' split) <;> rfl

/-- The create call never changes the tracker. -/
theorem createStage_tracked (opts : CreateClusterOptions) (env : CreateEnv)
    (tr : List RAction) (res : CreatedResources) :
    (sagaCreateStage opts env tr res).tracked = res := by
  unfold sagaCreateStage
  split
  · rfl
  · exact installStage_tracked opts env _ _ res

/-- The network-stack phase: the tracked OIDC id and roles prefix are
untouched, and the VPC flag is untouched when the caller supplied subnets. -/
theorem vpcStage_tracked (opts : CreateClusterOptions) (env : CreateEnv)
    (tr : List RAction) (res : CreatedResources) :
    (sagaVPCStage opts env tr res).tracked.oidcConfigID = res.oidcConfigID ∧
    (sagaVPCStage opts env tr res).tracked.accountRolesPrefix = res.accountRolesPrefix ∧
    (opts.SubnetIDs ≠ "" →
      (sagaVPCStage opts env tr res).tracked.createdVPC = res.createdVPC) := by
  unfold sagaVPCStage
  split
  · split
    · rename_i hsub
      dsimp only
      split
      · exact ⟨rfl, rfl, fun _ => rfl⟩
      · refine ⟨?_, ?_, fun h => absurd hsub h⟩ <;> rw [createStage_tracked]
    · refine ⟨?_, ?_, fun _ => ?_⟩ <;> rw [createStage_tracked]
  · refine ⟨?_, ?_, fun _ => ?_⟩ <;> rw [createStage_tracked]

/-- The prefix tracker: the VPC flag and OIDC id are untouched, and the
prefix is untouched when the default prefix is in use. -/
theorem trackRolesPfx_fields (u : Bool) (p : String) (res : CreatedResources) :
    (trackRolesPfx u p res).createdVPC = res.createdVPC ∧
    (trackRolesPfx u p res).oidcConfigID = res.oidcConfigID ∧
    (u = true → (trackRolesPfx u p res).accountRolesPrefix = res.accountRolesPrefix) := by
  unfold trackRolesPfx
  cases u
  · exact ⟨rfl, rfl, fun h => Bool.noConfusion h⟩
  · exact ⟨rfl, rfl, fun _ => rfl⟩

/-- A tracked roles prefix is either what was already tracked or the
cluster name (the custom prefix of this request). -/
theorem trackRolesPfx_pfx (opts : CreateClusterOptions) (mm : String)
    (res : CreatedResources) :
    (trackRolesPfx opts.UseDefaultAccountRolesPrefix (rolesPfxFor opts mm)
        res).accountRolesPrefix = res.accountRolesPrefix ∨
    (trackRolesPfx opts.UseDefaultAccountRolesPrefix (rolesPfxFor opts mm)
        res).accountRolesPrefix = opts.ClusterName := by
  unfold trackRolesPfx rolesPfxFor
  cases h : opts.UseDefaultAccountRolesPrefix
  · right
    simp
  · left
    simp

/-- The roles/OIDC phase: a caller-supplied OIDC config is never tracked,
caller-supplied subnets are never tracked, a default roles prefix is never
tracked, and a tracked prefix is the cluster name. -/
theorem rolesStage_tracked (opts : CreateClusterOptions) (env : CreateEnv)
    (tr : List RAction) (res : CreatedResources) :
    (opts.OidcConfigID ≠ "" →
      (sagaRolesStage opts env tr res).tracked.oidcConfigID = res.oidcConfigID) ∧
    (opts.SubnetIDs ≠ "" →
      (sagaRolesStage opts env tr res).tracked.createdVPC = res.createdVPC) ∧
    (opts.UseDefaultAccountRolesPrefix = true →
      (sagaRolesStage opts env tr res).tracked.accountRolesPrefix
        = res.accountRolesPrefix) ∧
    ((sagaRolesStage opts env tr res).tracked.accountRolesPrefix
        = res.accountRolesPrefix ∨
      (sagaRolesStage opts env tr res).tracked.accountRolesPrefix
        = opts.ClusterName) := by
  unfold sagaRolesStage
  split
  · split
    · exact ⟨fun _ => rfl, fun _ => rfl, fun _ => rfl, Or.inl rfl⟩
    · rename_i v hv
      dsimp only
      rcases hcar : CreateAccountRoles env.fedRamp env.rolesWorld
        (rolesPfxFor opts (toString v.major ++ "." ++ toString v.minor))
        (toString v.major ++ "." ++ toString v.minor) opts.ChannelGroup with ⟨r, ta⟩
      have htp := trackRolesPfx_fields opts.UseDefaultAccountRolesPrefix
        (rolesPfxFor opts (toString v.major ++ "." ++ toString v.minor)) res
      have hpp := trackRolesPfx_pfx opts (toString v.major ++ "." ++ toString v.minor) res
      cases r with
      | error e => exact ⟨fun _ => rfl, fun _ => rfl, fun _ => rfl, Or.inl rfl⟩
      | ok pr =>
        obtain ⟨ro, w2⟩ := pr
        cases ro with
        | none => exact ⟨fun _ => rfl, fun _ => rfl, fun _ => rfl, Or.inl rfl⟩
        | some roles =>
          dsimp only
          split
          · rename_i hoid
            cases hoi : env.createOIDC with
            | error e =>
              exact ⟨fun h => absurd hoid h, fun _ => htp.1, fun hu => htp.2.2 hu, hpp⟩
            | ok oid =>
              dsimp only
              have hv := vpcStage_tracked
                { opts with accountRoles := roles, OidcConfigID := oid } env
                (tr ++ ta ++ [RAction.createOIDCCall opts.ClusterName roles.installerRoleARN])
                { trackRolesPfx opts.UseDefaultAccountRolesPrefix
                    (rolesPfxFor opts (toString v.major ++ "." ++ toString v.minor)) res
                  with oidcConfigID := oid }
              refine ⟨fun h => absurd hoid h, fun h => ?_, fun hu => ?_, ?_⟩
              · exact (hv.2.2 h).trans htp.1
              · exact hv.2.1.trans (htp.2.2 hu)
              · rcases hpp with hp | hp
                · exact Or.inl (hv.2.1.trans hp)
                · exact Or.inr (hv.2.1.trans hp)
          · have hv := vpcStage_tracked { opts with accountRoles := roles } env (tr ++ ta)
              (trackRolesPfx opts.UseDefaultAccountRolesPrefix
                (rolesPfxFor opts (toString v.major ++ "." ++ toString v.minor)) res)
            refine ⟨fun h => ?_, fun h => ?_, fun hu => ?_, ?_⟩
            · exact hv.1.trans htp.2.1
            · exact (hv.2.2 h).trans htp.1
            · exact hv.2.1.trans (htp.2.2 hu)
            · rcases hpp with hp | hp
              · exact Or.inl (hv.2.1.trans hp)
              · exact Or.inr (hv.2.1.trans hp)
  · exact ⟨fun _ => (vpcStage_tracked opts env tr res).1,
      fun h => (vpcStage_tracked opts env tr res).2.2 h,
      fun _ => (vpcStage_tracked opts env tr res).2.1,
      Or.inl (vpcStage_tracked opts env tr res).2.1⟩

/-!  ## C1 and C2: fixtures and claim theorems -/

/-- A complete seven-role set under an arbitrary prefix. -/
def pfx7Roles (pfx : String) : List ListedRole :=
  [⟨pfx ++ "-ControlPlane-Role", pfx ++ ":cp", "Control plane"⟩,
   ⟨pfx ++ "-Installer-Role", pfx ++ ":inst", "Installer"⟩,
   ⟨pfx ++ "-Support-Role", pfx ++ ":sup", "Support"⟩,
   ⟨pfx ++ "-Worker-Role", pfx ++ ":wrk", "Worker"⟩,
   ⟨pfx ++ "-HCP-ROSA-Installer-Role", pfx ++ ":hinst", "Installer"⟩,
   ⟨pfx ++ "-HCP-ROSA-Support-Role", pfx ++ ":hsup", "Support"⟩,
   ⟨pfx ++ "-HCP-ROSA-Worker-Role", pfx ++ ":hwrk", "Worker"⟩]

/-- A world where the seven `c1x` roles already exist. -/
def c1World : RolesWorld := ⟨none, pfx7Roles "c1x", fun l => l, none⟩

/-- An STS private-link creation request with a custom roles prefix. -/
def c1Opts : CreateClusterOptions :=
  { baseCreateOpts with
    STS := true
    PrivateLink := true
    ClusterName := "c1x"
    Version := "4.14.3" }

/-- An environment whose install wait fails after every provisioning call
succeeded. -/
def c1Env : CreateEnv :=
  { baseCreateEnv with
    rolesWorld := c1World
    installWait := .error "cluster failed to become ready" }

/-- An environment whose `rosa create cluster` command fails. -/
def c1wEnv : CreateEnv :=
  { baseCreateEnv with
    rolesWorld := c1World
    runCreateCmd := .error "create cluster failed" }

/-- C1 counterexample: a creation attempt that fails at the install-wait
phase — after the account-roles phase, with a custom roles prefix, an OIDC
config and a network stack all tracked — triggers no compensating call at
all, refuting "for every creation attempt that fails at or after the
account-roles phase the orchestrator invokes compensation of the tracked
resources": compensation only covers the OIDC-, network-stack- and
cluster-create-phase failures. -/
theorem c1_counterexample :
    (CreateCluster c1Opts c1Env).failedPhase = some SagaPhase.installWait ∧
    (CreateCluster c1Opts c1Env).tracked.createdVPC = true ∧
    (CreateCluster c1Opts c1Env).tracked.oidcConfigID = "oidc-new" ∧
    (CreateCluster c1Opts c1Env).tracked.accountRolesPrefix = "c1x" ∧
    (CreateCluster c1Opts c1Env).trace.filter isCompAction = [] ∧
    (CreateCluster c1Opts c1Env).err
      = some (ClusterError.mk "create" "cluster failed to become ready") := by
  decide

/-- C1 (amended): compensation runs exactly for failures of the OIDC,
network-stack and cluster-create phases.  There the trace ends with the
compensating calls of precisely the tracked resources, in reverse creation
order — network stack, then OIDC config, then account roles — and
independent of each compensating call's own outcome (`cleanupActions`
ignores the compensation results: a failed compensating call never blocks
the rest).  For a failure of any other phase no compensating call is made.
The returned error is always the wrap of the original triggering error,
never a compensation error. -/
theorem c1_amended_compensation_scope (opts : CreateClusterOptions) (env : CreateEnv) :
    (compPhases (CreateCluster opts env).failedPhase = true →
      ∃ pre, (CreateCluster opts env).trace
          = pre ++ cleanupActions (CreateCluster opts env).tracked ∧
        pre.filter isCompAction = []) ∧
    (compPhases (CreateCluster opts env).failedPhase = false →
      (CreateCluster opts env).trace.filter isCompAction = []) ∧
    (CreateCluster opts env).err
      = Option.map (fun e => ClusterError.mk "create" e)
          (CreateCluster opts env).origErr := by
  obtain ⟨h1, h2, h3⟩ := createCluster_props opts env
  refine ⟨?_, fun hc => clean_filter (h2 hc), h3⟩
  intro hc
  obtain ⟨pre, htr, hpre⟩ := h1 hc
  exact ⟨pre, by rw [htr, cleanup_eq_cleanupActions], clean_filter hpre⟩

/-- Witness for C1 (amended): a failing create command compensates all
three tracked resources after a compensation-free prefix. -/
theorem c1_amended_compensation_scope_witness :
    ∃ pre, (CreateCluster c1Opts c1wEnv).trace
        = pre ++ cleanupActions (CreateCluster c1Opts c1wEnv).tracked ∧
      pre.filter isCompAction = [] :=
  (c1_amended_compensation_scope c1Opts c1wEnv).1 (by decide)

/-- True exactly on the `rosa create account-roles` command. -/
def isCreateRolesAction : RAction → Bool
  | .createRolesCmd _ _ _ => true
  | _ => false

/-- True exactly on the `rosa delete account-roles` command. -/
def isDeleteRolesAction : RAction → Bool
  | .deleteRolesCmd _ => true
  | _ => false

/-- True exactly on the network-stack teardown call. -/
def isDeleteVPCAction : RAction → Bool
  | .deleteVPCCall _ _ _ => true
  | _ => false

/-- Seven pre-existing roles under `c2x` that pass the count check while
leaving the control-plane ARN empty, so validation fails later. -/
def c2Roles : List ListedRole :=
  [⟨"c2x-Installer-Role", "arn:c2:inst", "Installer"⟩,
   ⟨"c2x-InstallerB-Role", "arn:c2:instb", "Installer"⟩,
   ⟨"c2x-Support-Role", "arn:c2:sup", "Support"⟩,
   ⟨"c2x-Worker-Role", "arn:c2:wrk", "Worker"⟩,
   ⟨"c2x-HCP-ROSA-Installer-Role", "arn:c2:hinst", "Installer"⟩,
   ⟨"c2x-HCP-ROSA-Support-Role", "arn:c2:hsup", "Support"⟩,
   ⟨"c2x-HCP-ROSA-Worker-Role", "arn:c2:hwrk", "Worker"⟩]

/-- An STS private-link creation request under the pre-existing `c2x`
role set. -/
def c2Opts : CreateClusterOptions :=
  { baseCreateOpts with
    STS := true
    PrivateLink := true
    ClusterName := "c2x"
    Version := "4.14.3" }

/-- An environment whose role listing already holds the `c2x` roles. -/
def c2Env : CreateEnv :=
  { baseCreateEnv with rolesWorld := ⟨none, c2Roles, fun l => l, none⟩ }

/-- C2 counterexample: a creation attempt that fails after the network
stack was provisioned but before the cluster-create command, with a
pre-existing role set (no create account-roles command was issued),
compensates with exactly one network-stack teardown — but also with one
account-role teardown, not zero: the tracker records the custom roles
prefix whether or not the roles pre-existed. -/
theorem c2_counterexample :
    (CreateCluster c2Opts c2Env).failedPhase = some SagaPhase.createCall ∧
    (CreateCluster c2Opts c2Env).trace.filter isCreateCmdAction = [] ∧
    (CreateCluster c2Opts c2Env).trace.filter isCreateRolesAction = [] ∧
    (CreateCluster c2Opts c2Env).trace.filter isDeleteVPCAction
      = [RAction.deleteVPCCall "c2x" "us-east-1" "/tmp"] ∧
    (CreateCluster c2Opts c2Env).trace.filter isDeleteRolesAction
      = [RAction.deleteRolesCmd "c2x"] := by
  decide

/-- C2 (amended): the tracker records a resource for rollback only from
this attempt's own provisioning decisions — a caller-supplied OIDC config
id is never tracked, caller-supplied subnet ids are never tracked, and the
shared default account-roles prefix is never tracked; but a custom roles
prefix, when tracked, is the cluster name, and it is recorded whether or
not the role set pre-existed (the divergence the counterexample pins). -/
theorem c2_amended_tracking_scope (opts : CreateClusterOptions) (env : CreateEnv) :
    ((setDefaultCreateClusterOptions opts env.tempDir).OidcConfigID ≠ "" →
      (CreateCluster opts env).tracked.oidcConfigID = "") ∧
    ((setDefaultCreateClusterOptions opts env.tempDir).SubnetIDs ≠ "" →
      (CreateCluster opts env).tracked.createdVPC = false) ∧
    ((setDefaultCreateClusterOptions opts env.tempDir).UseDefaultAccountRolesPrefix
        = true →
      (CreateCluster opts env).tracked.accountRolesPrefix = "") ∧
    ((CreateCluster opts env).tracked.accountRolesPrefix = "" ∨
      (CreateCluster opts env).tracked.accountRolesPrefix
        = (setDefaultCreateClusterOptions opts env.tempDir).ClusterName) := by
  unfold CreateCluster
  dsimp only
  split
  · exact ⟨fun _ => rfl, fun _ => rfl, fun _ => rfl, Or.inl rfl⟩
  · split
    · exact ⟨fun _ => rfl, fun _ => rfl, fun _ => rfl, Or.inl rfl⟩
    · have h := rolesStage_tracked (setDefaultCreateClusterOptions opts env.tempDir) env
        ((if (setDefaultCreateClusterOptions opts env.tempDir).ChannelGroup = "nightly"
            then [RAction.nightlyWaitCall] else [])
          ++ [RAction.regionCheckCall env.region])
        ⟨false, (setDefaultCreateClusterOptions opts env.tempDir).ClusterName, "", "",
          env.region, (setDefaultCreateClusterOptions opts env.tempDir).WorkingDir⟩
      exact ⟨fun hh => h.1 hh, fun hh => h.2.1 hh, fun hh => h.2.2.1 hh, h.2.2.2⟩

/-- Options with a caller-supplied OIDC config id and subnet ids. -/
def c2wOpts : CreateClusterOptions :=
  { baseCreateOpts with
    ClusterName := "c2w"
    Version := "4.14.3"
    OidcConfigID := "oidc-caller"
    SubnetIDs := "subnet-a,subnet-b" }

/-- Witness for C2 (amended): caller-supplied OIDC config and subnets are
never tracked for rollback. -/
theorem c2_amended_tracking_scope_witness :
    (CreateCluster c2wOpts baseCreateEnv).tracked.oidcConfigID = "" ∧
    (CreateCluster c2wOpts baseCreateEnv).tracked.createdVPC = false :=
  ⟨(c2_amended_tracking_scope c2wOpts baseCreateEnv).1 (by decide),
   (c2_amended_tracking_scope c2wOpts baseCreateEnv).2.1 (by decide)⟩
